import Mathlib

/- Verification of the MQTT command bridge in
   `src/server/frontend/main.py` (maskcam operator dashboard).

   Shallow-embedding conventions:

   * JSON values are the inductive `Json`.  An inbound MQTT payload is an
     `Option Json`: `some j` stands for bytes for which
     `json.loads(msg.payload.decode())` succeeds and yields `j`, `none` for
     bytes on which decoding raises.
   * Python exceptions are the `.error` side of `Except`.  At the level of
     a whole bridge invocation the error carries the mutated run state
     (`Except (String × RunSt)`), because Python mutates the session state
     in place before an exception propagates.
   * The network is an oracle `Env`: what each `client.loop` call delivers
     (CONNACK processing, inbound messages) and how each publish attempt
     behaves (`msg_info.rc`, when `msg_info.is_published()` becomes true,
     whether `subscribe` / `publish` / `reconnect` raise).  `is_published`
     for an attempt is a function of the number of `client.loop` calls made
     inside that attempt's confirmation wait; `rc` is fixed at publish time,
     exactly as `paho` fills `MQTTMessageInfo` for QoS-0 publishes.
   * `RunSt` carries, besides the Python session state, ghost trace fields
     (list of publish calls with state snapshots, reconnect counter,
     status-line log, the values the bridge itself assigns to
     `mqtt_last_status`, ...) that record the externally visible calls the
     claims talk about.  They are write-only instrumentation; no branch of
     the embedded code reads them.
-/

def MQTT_TOPIC_COMMANDS : String := "commands"

def MQTT_TOPIC_STATUS : String := "device-status"

def CMD_FILE_SAVE : String := "save_file"

def CMD_STREAMING_START : String := "streaming_start"

def CMD_STREAMING_STOP : String := "streaming_stop"

def CMD_INFERENCE_RESTART : String := "inference_restart"

def CMD_FILESERVER_RESTART : String := "fileserver_restart"

def CMD_REQUEST_STATUS : String := "status_request"

/-- The closed set of command strings the dashboard can send. -/
def allCommands : List String :=
  [CMD_FILE_SAVE, CMD_STREAMING_START, CMD_STREAMING_STOP,
   CMD_INFERENCE_RESTART, CMD_FILESERVER_RESTART, CMD_REQUEST_STATUS]

/-- Values produced by `json.loads`. -/
inductive Json where
  | null
  | bool (b : Bool)
  | num (n : Int)
  | str (s : String)
  | arr (elems : List Json)
  | obj (fields : List (String × Json))

/-- Python truthiness of a decoded JSON value (`if not x`). -/
def Json.truthy : Json → Bool
  | .null => false
  | .bool b => b
  | .num n => n != 0
  | .str s => s != ""
  | .arr l => !l.isEmpty
  | .obj l => !l.isEmpty

/-- `message["device_id"]`-style lookup.  Returns `some` only for an object
that has the key; anything else makes the Python subscript raise
(TypeError / KeyError).  Keys of a dict produced by `json.loads` are
unique, so first-match lookup is exact. -/
def Json.getField : Json → String → Option Json
  | .obj fields, k => fields.lookup k
  | _, _ => none

/-- Python `==` between a decoded JSON value and a Python string
(`message["device_id"] == state.selected_device`): only a JSON string with
the same characters compares equal. -/
def Json.eqStr : Json → String → Bool
  | .str t, s => t == s
  | _, _ => false

/-- The per-session dashboard state touched by the bridge
(`state.mqtt_connected`, `state.mqtt_status`, `state.mqtt_last_status`,
`state.selected_device`). -/
structure SessionState where
  mqtt_connected : Bool
  mqtt_status : Option String
  mqtt_last_status : Option Json
  selected_device : Option String

/-- Python truthiness of `state.selected_device` (a string or None). -/
def optStrTruthy : Option String → Bool
  | none => false
  | some s => s != ""

/-- Python truthiness of `state.mqtt_last_status` (a decoded dict or None). -/
def optJsonTruthy : Option Json → Bool
  | none => false
  | some j => j.truthy

/-- One inbound MQTT message as seen by the `on_message` callback.
`payload = none` models bytes on which `msg.payload.decode()` /
`json.loads` raises. -/
structure InMsg where
  topic : String
  payload : Option Json

/-- `_on_message` (main.py lines 231-241).  The `.error` results are the
exceptions the handler lets escape: the `assert` on the topic, the JSON
decode error, and the subscript on a record without `"device_id"`. -/
def on_message (s : SessionState) (m : InMsg) : Except String SessionState :=
  if m.topic != MQTT_TOPIC_STATUS then
    .error "AssertionError"
  else if !optStrTruthy s.selected_device then
    .ok s
  else
    match m.payload with
    | none => .error "JSONDecodeError"
    | some message =>
      match message.getField "device_id" with
      | none => .error "KeyError: device_id"
      | some v =>
        if !(v.eqStr ((s.selected_device).getD "")) then
          .ok s
        else
          .ok { s with mqtt_last_status := some message }

/-- `_on_connect` (lines 226-228): set `mqtt_connected` on a CONNACK with
result code 0, otherwise do nothing. -/
def on_connect (s : SessionState) (rc : Nat) : SessionState :=
  if rc = 0 then { s with mqtt_connected := true } else s

/-- What one `client.loop` call processes: an optional CONNACK (with its
result code) and the inbound messages dispatched to `on_message`. -/
structure PumpEvent where
  connack : Option Nat
  msgs : List InMsg

/-- Transport behaviour of one publish attempt
(`client.subscribe` / `client.publish` / `client.reconnect` of one
iteration of the retry loop).  `rc` is `msg_info.rc`; `pubAt = some n`
means `msg_info.is_published()` turns true once the attempt's confirmation
wait has made `n` loop calls, `none` means it never does.  The `*Err`
fields, when `some`, are exceptions raised by the corresponding call. -/
structure AttemptEnv where
  subErr : Option String
  pubErr : Option String
  rc : Nat
  pubAt : Option Nat
  reconErr : Option String

/-- The transport oracle for one bridge invocation: whether acquiring the
cached client (`restore_client`: constructor + `connect`) raises, what the
k-th `client.loop` call of the invocation processes, and how the i-th
publish attempt behaves. -/
structure Env where
  acquireErr : Option String
  pumps : Nat → PumpEvent
  attempts : Nat → AttemptEnv

/-- `msg_info.is_published()` for attempt `a` after `p` loop calls of its
confirmation wait. -/
def isPublished (a : AttemptEnv) (p : Nat) : Bool :=
  match a.pubAt with
  | some n => decide (n ≤ p)
  | none => false

/-- A publish call (`client.publish(topic, json.dumps(message))`) recorded
with snapshots of the state at call time. -/
structure PubEv where
  topic : String
  message : Json
  snapLastStatus : Option Json
  snapRecon : Nat
  snapConnFalse : Nat

/-- Run state of one bridge invocation: the Python session state plus
ghost trace fields (newest-first lists). -/
structure RunSt where
  sess : SessionState
  pumpIdx : Nat
  pubs : List PubEv
  subCount : Nat
  reconCount : Nat
  connFalseCount : Nat
  statusLog : List String
  bridgeLsWrites : List (Option Json)
  confirmSnapRecon : Option Nat
  respWaitEntered : Bool

def initRun (s0 : SessionState) : RunSt :=
  { sess := s0, pumpIdx := 0, pubs := [], subCount := 0, reconCount := 0,
    connFalseCount := 0, statusLog := [], bridgeLsWrites := [],
    confirmSnapRecon := none, respWaitEntered := false }

/-- The state an `Except`-with-state computation ends in, whether it
returned or raised. -/
def resSt : Except (String × RunSt) RunSt → RunSt
  | .ok st => st
  | .error (_, st) => st

/-- `mqtt_set_status` (lines 220-223): store the line in
`state.mqtt_status` and render it (rendering is ghost-logged). -/
def mqtt_set_status (st : RunSt) (text : String) : RunSt :=
  { st with sess := { st.sess with mqtt_status := some text },
            statusLog := text :: st.statusLog }

/-- Dispatch a batch of inbound messages through `on_message`; a raised
exception aborts the batch carrying the state reached so far (the handler
mutates nothing before it raises). -/
def pumpMsgs (s : SessionState) : List InMsg → Except (String × SessionState) SessionState
  | [] => .ok s
  | m :: rest =>
    match on_message s m with
    | .ok s1 => pumpMsgs s1 rest
    | .error e => .error (e, s)

/-- One `client.loop(timeout=1)` call: process a pending CONNACK through
`on_connect`, then dispatch inbound messages through `on_message`.
Callback exceptions propagate out of `loop`, as `paho` lets them. -/
def pump (env : Env) (st : RunSt) : Except (String × RunSt) RunSt :=
  let ev := env.pumps st.pumpIdx
  let s1 := match ev.connack with
    | some rc => on_connect st.sess rc
    | none => st.sess
  let st1 := { st with sess := s1, pumpIdx := st.pumpIdx + 1 }
  match pumpMsgs st1.sess ev.msgs with
  | .ok s2 => .ok { st1 with sess := s2 }
  | .error (e, s2) => .error (e, { st1 with sess := s2 })

/-- `mqtt_wait_connection` (lines 258-261):
`while not state.mqtt_connected and timeout: client.loop(timeout=1); timeout -= 1`. -/
def mqtt_wait_connection (env : Env) : RunSt → Nat → Except (String × RunSt) RunSt
  | st, 0 => .ok st
  | st, timeout + 1 =>
    if st.sess.mqtt_connected then .ok st
    else
      match pump env st with
      | .ok st1 => mqtt_wait_connection env st1 timeout
      | .error e => .error e

/-- `mqtt_wait_response` (lines 264-267):
`while not state.mqtt_last_status and timeout: client.loop(timeout=1); timeout -= 1`. -/
def mqtt_wait_response (env : Env) : RunSt → Nat → Except (String × RunSt) RunSt
  | st, 0 => .ok st
  | st, timeout + 1 =>
    if optJsonTruthy st.sess.mqtt_last_status then .ok st
    else
      match pump env st with
      | .ok st1 => mqtt_wait_response env st1 timeout
      | .error e => .error e

/-- The publish-confirmation wait (lines 290-293):
`while not msg_info.rc and not msg_info.is_published() and timeout: client.loop(1); timeout -= 1`.
Returns the state together with the number of loop calls made, at which
`is_published()` is re-evaluated afterwards. -/
def wait_publish (env : Env) (a : AttemptEnv) : RunSt → Nat → Nat → Except (String × RunSt) (RunSt × Nat)
  | st, p, 0 => .ok (st, p)
  | st, p, timeout + 1 =>
    if a.rc == 0 && !isPublished a p then
      match pump env st with
      | .ok st1 => wait_publish env a st1 (p + 1) timeout
      | .error e => .error e
    else .ok (st, p)

/-- The publish event recorded for a `client.publish` call made in state
`st`: the call's arguments plus snapshots of the session at call time. -/
def mkPub (topic : String) (message : Json) (st : RunSt) : PubEv :=
  { topic := topic, message := message,
    snapLastStatus := st.sess.mqtt_last_status,
    snapRecon := st.reconCount,
    snapConnFalse := st.connFalseCount }

/-- Record a `client.publish` call with snapshots of the session state. -/
def recordPublish (st : RunSt) (topic : String) (message : Json) : RunSt :=
  { st with pubs := mkPub topic message st :: st.pubs }

/-- The retry loop of `send_mqtt_message_wait_response` (lines 283-302):
`retry_publish = 2; while retry_publish: retry_publish -= 1; subscribe;
publish; ...`.  `last` is the `msg_info` of the most recent publish,
identified by its attempt index and the loop-call count at which its
confirmation wait stopped; `none` before any publish (`msg_info` unbound). -/
def retry_loop (env : Env) (topic : String) (message : Json) :
    RunSt → Nat → Nat → Option (Nat × Nat) →
    Except (String × RunSt) (RunSt × Option (Nat × Nat))
  | st, _, 0, last => .ok (st, last)
  | st, attemptIdx, retry + 1, _ =>
    let a := env.attempts attemptIdx
    match a.subErr with
    | some e => .error (e, st)
    | none =>
      let st1 := { st with subCount := st.subCount + 1 }
      match a.pubErr with
      | some e => .error (e, st1)
      | none =>
        let st2 := mqtt_set_status (recordPublish st1 topic message) "Sending message..."
        match wait_publish env a st2 0 5 with
        | .error e => .error e
        | .ok (st3, p) =>
          if isPublished a p then
            let st4 := mqtt_set_status st3 ":clock3: 等待設備響應..."
            let st5 := { st4 with confirmSnapRecon := some st4.reconCount }
            .ok (st5, some (attemptIdx, p))
          else if a.rc != 0 then
            let st4 := { st3 with
                         sess := { st3.sess with mqtt_connected := false },
                         connFalseCount := st3.connFalseCount + 1 }
            let st5 := mqtt_set_status st4 ":clock3: 正在重新連接..."
            match a.reconErr with
            | some e => .error (e, st5)
            | none =>
              let st6 := { st5 with reconCount := st5.reconCount + 1 }
              match mqtt_wait_connection env st6 5 with
              | .error e => .error e
              | .ok st7 => retry_loop env topic message st7 (attemptIdx + 1) retry (some (attemptIdx, p))
          else
            retry_loop env topic message st3 (attemptIdx + 1) retry (some (attemptIdx, p))

/-- Line 278 of `send_mqtt_message_wait_response`:
`state.mqtt_last_status = None`, the only assignment the bridge itself
makes to `last_status` (recorded in the ghost `bridgeLsWrites`). -/
def clearStep (stc : RunSt) : RunSt :=
  { stc with sess := { stc.sess with mqtt_last_status := none },
             bridgeLsWrites := none :: stc.bridgeLsWrites }

/-- Lines 283-310: the retry loop followed by the `msg_info` check and the
response wait, entered right after the clear at line 278 (`clearStep`). -/
def send_after_connect (env : Env) (topic : String) (message : Json)
    (stc : RunSt) : Except (String × RunSt) RunSt :=
  let std : RunSt := clearStep stc
  match retry_loop env topic message std 0 2 none with
  | .error e => .error e
  | .ok (str, last) =>
    match last with
    | none => .error ("NameError: msg_info", str)
    | some (i, p) =>
      if !isPublished (env.attempts i) p then
        .ok (mqtt_set_status str ":o: Message failed")
      else
        let stw : RunSt := { str with respWaitEntered := true }
        match mqtt_wait_response env stw 5 with
        | .error e => .error e
        | .ok stz =>
          if !optJsonTruthy stz.sess.mqtt_last_status then
            .ok (mqtt_set_status stz ":red_circle: 設備無響應")
          else
            .ok stz

/-- The body of `send_mqtt_message_wait_response` (lines 270-310) up to but
not including the top-level `except` clause.  A `.error` result is an
exception reaching the `except`, carrying the state mutated so far. -/
def send_mqtt_message_core (env : Env) (s0 : SessionState)
    (topic : String) (message : Json) : Except (String × RunSt) RunSt :=
  let st0 : RunSt := initRun s0
  match env.acquireErr with
  | some e => .error (e, st0)
  | none =>
    let afterConnect : Except (String × RunSt) RunSt :=
      if !s0.mqtt_connected then
        mqtt_wait_connection env (mqtt_set_status st0 "正在連接...") 5
      else .ok st0
    match afterConnect with
    | .error e => .error e
    | .ok stc => send_after_connect env topic message stc

/-- `send_mqtt_message_wait_response` (lines 270-313), including the
top-level `except Exception` clause that turns any raised exception into
the "cannot reach broker" status line. -/
def send_mqtt_message_wait_response (env : Env) (s0 : SessionState)
    (topic : String) (message : Json) : RunSt :=
  match send_mqtt_message_core env s0 topic message with
  | .ok st => st
  | .error (e, st) => mqtt_set_status st (":red_circle: 無法連接到 MQTT 代理: " ++ e)

/-- The CommandEnvelope dict built at line 318:
`{"device_id": device_id, "command": command}`. -/
def commandEnvelope (device_id command : String) : Json :=
  .obj [("device_id", .str device_id), ("command", .str command)]

/-- `send_mqtt_command` (lines 316-319). -/
def send_mqtt_command (env : Env) (s0 : SessionState)
    (device_id command : String) : RunSt :=
  send_mqtt_message_wait_response env s0 MQTT_TOPIC_COMMANDS
    (commandEnvelope device_id command)

/- ## Listener-level claims -/

/-- C2: an inbound message whose decoded record carries a `device_id`
different from the currently selected device leaves the session state
(and in particular `mqtt_last_status`) completely unchanged; and whenever
the handler completes normally, `mqtt_last_status` is either untouched or
holds a record whose `device_id` equals the selected device. -/
theorem claim2_listener_filters_by_device :
    (∀ (s : SessionState) (m : InMsg) (j v : Json),
        m.topic = MQTT_TOPIC_STATUS →
        m.payload = some j →
        j.getField "device_id" = some v →
        v.eqStr ((s.selected_device).getD "") = false →
        on_message s m = .ok s) ∧
    (∀ (s s1 : SessionState) (m : InMsg),
        on_message s m = .ok s1 →
        s1.mqtt_last_status = s.mqtt_last_status ∨
        ∃ j v, s1.mqtt_last_status = some j ∧
          j.getField "device_id" = some v ∧
          v.eqStr ((s.selected_device).getD "") = true) := by
  constructor
  · intro s m j v ht hp hg he
    simp only [on_message, ht, bne_self_eq_false, Bool.false_eq_true, if_false, hp, hg, he,
      Bool.not_false, if_true]
    split <;> rfl
  · intro s s1 m h
    simp only [on_message] at h
    split at h
    · exact absurd h (by simp)
    · split at h
      · left; cases h; rfl
      · cases hp : m.payload with
        | none => rw [hp] at h; exact absurd h (by simp)
        | some message =>
          rw [hp] at h
          dsimp only at h
          cases hg : message.getField "device_id" with
          | none => rw [hg] at h; exact absurd h (by simp)
          | some v =>
            rw [hg] at h
            dsimp only at h
            cases hb : !v.eqStr (s.selected_device.getD "") with
            | true =>
              rw [hb] at h
              simp only [if_true] at h
              left
              injection h with h1
              rw [← h1]
            | false =>
              rw [hb] at h
              simp only [Bool.false_eq_true, if_false] at h
              right
              injection h with h1
              refine ⟨message, v, ?_, hg, ?_⟩
              · rw [← h1]
              · simpa using hb

/-- C2 witness: a record for `cam-2` while `cam-1` is selected leaves the
state unchanged, and a normally completing handler call obeys the
filtering invariant at a concrete input. -/
theorem claim2_witness :
    on_message
      { mqtt_connected := true, mqtt_status := none, mqtt_last_status := none,
        selected_device := some "cam-1" }
      { topic := MQTT_TOPIC_STATUS,
        payload := some (.obj [("device_id", .str "cam-2")]) } =
      .ok { mqtt_connected := true, mqtt_status := none, mqtt_last_status := none,
            selected_device := some "cam-1" } :=
  claim2_listener_filters_by_device.1
    { mqtt_connected := true, mqtt_status := none, mqtt_last_status := none,
      selected_device := some "cam-1" }
    { topic := MQTT_TOPIC_STATUS,
      payload := some (.obj [("device_id", .str "cam-2")]) }
    (.obj [("device_id", .str "cam-2")]) (.str "cam-2")
    rfl rfl rfl (by decide)

/-- C10: while no device is selected (`state.selected_device` is None or
empty, i.e. falsy), the listener returns before decoding and changes
nothing — even for undecodable payloads — and therefore no batch of
status-topic messages can make `mqtt_last_status` non-none. -/
theorem claim10_no_selected_device_drops_all :
    (∀ (s : SessionState) (m : InMsg),
        m.topic = MQTT_TOPIC_STATUS →
        optStrTruthy s.selected_device = false →
        on_message s m = .ok s) ∧
    (∀ (s : SessionState) (msgs : List InMsg),
        (∀ m ∈ msgs, m.topic = MQTT_TOPIC_STATUS) →
        optStrTruthy s.selected_device = false →
        pumpMsgs s msgs = .ok s) := by
  have single : ∀ (s : SessionState) (m : InMsg),
      m.topic = MQTT_TOPIC_STATUS →
      optStrTruthy s.selected_device = false →
      on_message s m = .ok s := by
    intro s m ht hsel
    simp only [on_message, ht, bne_self_eq_false, Bool.false_eq_true, if_false, hsel,
      Bool.not_false, if_true]
  refine ⟨single, ?_⟩
  intro s msgs hAll hsel
  induction msgs with
  | nil => rfl
  | cons m rest ih =>
    simp only [pumpMsgs, single s m (hAll m (by simp)) hsel]
    exact ih (fun m hm => hAll m (by simp [hm]))

/-- C10 witness: with no device selected, even an undecodable payload on
the status topic is dropped with the state unchanged, and a whole batch of
status messages leaves the state unchanged. -/
theorem claim10_witness :
    on_message
      { mqtt_connected := true, mqtt_status := none, mqtt_last_status := none,
        selected_device := none }
      { topic := MQTT_TOPIC_STATUS, payload := none } =
      .ok { mqtt_connected := true, mqtt_status := none, mqtt_last_status := none,
            selected_device := none } ∧
    pumpMsgs
      { mqtt_connected := true, mqtt_status := none, mqtt_last_status := none,
        selected_device := none }
      [{ topic := MQTT_TOPIC_STATUS, payload := none },
       { topic := MQTT_TOPIC_STATUS,
         payload := some (.obj [("device_id", .str "cam-1")]) }] =
      .ok { mqtt_connected := true, mqtt_status := none, mqtt_last_status := none,
            selected_device := none } :=
  ⟨claim10_no_selected_device_drops_all.1
      { mqtt_connected := true, mqtt_status := none, mqtt_last_status := none,
        selected_device := none }
      { topic := MQTT_TOPIC_STATUS, payload := none } rfl rfl,
   claim10_no_selected_device_drops_all.2
      { mqtt_connected := true, mqtt_status := none, mqtt_last_status := none,
        selected_device := none }
      [{ topic := MQTT_TOPIC_STATUS, payload := none },
       { topic := MQTT_TOPIC_STATUS,
         payload := some (.obj [("device_id", .str "cam-1")]) }]
      (by intro m hm; simp at hm; rcases hm with h | h <;> simp [h]) rfl⟩

/-- C8 counterexample: with a device selected, a malformed (undecodable)
payload on the status topic makes the listener raise out of the handler —
`json.loads` at line 237 is not guarded — contradicting the claim that the
message is dropped without an exception escaping. -/
theorem claim8_counterexample :
    on_message
      { mqtt_connected := true, mqtt_status := none, mqtt_last_status := none,
        selected_device := some "cam-1" }
      { topic := MQTT_TOPIC_STATUS, payload := none } =
      .error "JSONDecodeError" := by
  rfl

/-- C8 (amended): a malformed status payload makes the listener raise a
decode error out of the handler (terminating the current `client.loop`
call) without mutating `mqtt_last_status` or any other session state; the
exception is then caught by `send_mqtt_message_wait_response`'s top-level
handler rather than crashing the process. -/
theorem claim8_amended :
    ∀ (s : SessionState) (m : InMsg),
      m.topic = MQTT_TOPIC_STATUS →
      optStrTruthy s.selected_device = true →
      m.payload = none →
      on_message s m = .error "JSONDecodeError" ∧
      pumpMsgs s [m] = .error ("JSONDecodeError", s) := by
  intro s m ht hsel hp
  have h1 : on_message s m = .error "JSONDecodeError" := by
    simp only [on_message, ht, bne_self_eq_false, Bool.false_eq_true, if_false, hsel,
      Bool.not_true, hp]
  exact ⟨h1, by simp only [pumpMsgs, h1]⟩

/-- C8 witness: the amended behaviour at a concrete input. -/
theorem claim8_witness :
    on_message
      { mqtt_connected := true, mqtt_status := some "ok", mqtt_last_status := none,
        selected_device := some "cam-1" }
      { topic := MQTT_TOPIC_STATUS, payload := none } =
      .error "JSONDecodeError" ∧
    pumpMsgs
      { mqtt_connected := true, mqtt_status := some "ok", mqtt_last_status := none,
        selected_device := some "cam-1" }
      [{ topic := MQTT_TOPIC_STATUS, payload := none }] =
      .error ("JSONDecodeError",
        { mqtt_connected := true, mqtt_status := some "ok", mqtt_last_status := none,
          selected_device := some "cam-1" }) :=
  claim8_amended
    { mqtt_connected := true, mqtt_status := some "ok", mqtt_last_status := none,
      selected_device := some "cam-1" }
    { topic := MQTT_TOPIC_STATUS, payload := none } rfl (by decide) rfl

/- ## Frame lemmas for the pump and the bounded wait loops -/

/-- A record the listener would store for the given selected device: it has
a `device_id` field equal to that device. -/
def matchesSelected (sel : Option String) (j : Json) : Prop :=
  ∃ v, j.getField "device_id" = some v ∧ v.eqStr (sel.getD "") = true

/-- Invariant on `mqtt_last_status` from the clear at line 278 onwards:
it is none, or a record stored by the listener for the selected device. -/
def lsInv (sel : Option String) (ls : Option Json) : Prop :=
  ls = none ∨ ∃ j, ls = some j ∧ matchesSelected sel j

def resSess : Except (String × SessionState) SessionState → SessionState
  | .ok s => s
  | .error (_, s) => s

def resSt2 : Except (String × RunSt) (RunSt × Nat) → RunSt
  | .ok (st, _) => st
  | .error (_, st) => st

/-- What a state reached from `st` purely by `client.loop` calls satisfies:
all ghost trace fields, the selected device and the status line are
untouched, the pump index only grows, and the `mqtt_last_status` invariant
is preserved. -/
structure PumpOnly (st st1 : RunSt) : Prop where
  pubs : st1.pubs = st.pubs
  subCount : st1.subCount = st.subCount
  reconCount : st1.reconCount = st.reconCount
  connFalseCount : st1.connFalseCount = st.connFalseCount
  statusLog : st1.statusLog = st.statusLog
  bridgeLsWrites : st1.bridgeLsWrites = st.bridgeLsWrites
  confirmSnapRecon : st1.confirmSnapRecon = st.confirmSnapRecon
  respWaitEntered : st1.respWaitEntered = st.respWaitEntered
  selected : st1.sess.selected_device = st.sess.selected_device
  statusLine : st1.sess.mqtt_status = st.sess.mqtt_status
  pumpIdxGe : st.pumpIdx ≤ st1.pumpIdx
  ls : lsInv st.sess.selected_device st.sess.mqtt_last_status →
       lsInv st.sess.selected_device st1.sess.mqtt_last_status

theorem pumpOnly_refl (st : RunSt) : PumpOnly st st :=
  ⟨rfl, rfl, rfl, rfl, rfl, rfl, rfl, rfl, rfl, rfl, Nat.le_refl _, fun h => h⟩

theorem pumpOnly_trans {st st1 st2 : RunSt}
    (p1 : PumpOnly st st1) (p2 : PumpOnly st1 st2) : PumpOnly st st2 := by
  refine ⟨?_, ?_, ?_, ?_, ?_, ?_, ?_, ?_, ?_, ?_, ?_, ?_⟩
  · rw [p2.pubs, p1.pubs]
  · rw [p2.subCount, p1.subCount]
  · rw [p2.reconCount, p1.reconCount]
  · rw [p2.connFalseCount, p1.connFalseCount]
  · rw [p2.statusLog, p1.statusLog]
  · rw [p2.bridgeLsWrites, p1.bridgeLsWrites]
  · rw [p2.confirmSnapRecon, p1.confirmSnapRecon]
  · rw [p2.respWaitEntered, p1.respWaitEntered]
  · rw [p2.selected, p1.selected]
  · rw [p2.statusLine, p1.statusLine]
  · exact Nat.le_trans p1.pumpIdxGe p2.pumpIdxGe
  · intro h
    have h2 := p2.ls
    rw [p1.selected] at h2
    exact h2 (p1.ls h)

/-- Frame of a normally completing `_on_message` call: only
`mqtt_last_status` may change, and only to a matching record. -/
theorem on_message_ok_frame {s s1 : SessionState} {m : InMsg}
    (h : on_message s m = .ok s1) :
    s1.mqtt_connected = s.mqtt_connected ∧
    s1.mqtt_status = s.mqtt_status ∧
    s1.selected_device = s.selected_device ∧
    (s1.mqtt_last_status = s.mqtt_last_status ∨
      ∃ j, s1.mqtt_last_status = some j ∧ matchesSelected s.selected_device j) := by
  simp only [on_message] at h
  split at h
  · exact absurd h (by simp)
  · split at h
    · cases h; exact ⟨rfl, rfl, rfl, Or.inl rfl⟩
    · cases hp : m.payload with
      | none => rw [hp] at h; exact absurd h (by simp)
      | some message =>
        rw [hp] at h
        dsimp only at h
        cases hg : message.getField "device_id" with
        | none => rw [hg] at h; exact absurd h (by simp)
        | some v =>
          rw [hg] at h
          dsimp only at h
          cases hb : !v.eqStr (s.selected_device.getD "") with
          | true =>
            rw [hb] at h
            simp only [if_true] at h
            cases h
            exact ⟨rfl, rfl, rfl, Or.inl rfl⟩
          | false =>
            rw [hb] at h
            simp only [Bool.false_eq_true, if_false] at h
            cases h
            exact ⟨rfl, rfl, rfl, Or.inr ⟨message, rfl, v, hg, by simpa using hb⟩⟩

/-- Frame of a batch dispatch, whether it completes or raises midway. -/
theorem pumpMsgs_frame :
    ∀ (msgs : List InMsg) (s : SessionState),
      (resSess (pumpMsgs s msgs)).mqtt_status = s.mqtt_status ∧
      (resSess (pumpMsgs s msgs)).selected_device = s.selected_device ∧
      (lsInv s.selected_device s.mqtt_last_status →
        lsInv s.selected_device (resSess (pumpMsgs s msgs)).mqtt_last_status) := by
  intro msgs
  induction msgs with
  | nil => intro s; exact ⟨rfl, rfl, fun h => h⟩
  | cons m rest ih =>
    intro s
    simp only [pumpMsgs]
    cases hm : on_message s m with
    | error e => exact ⟨rfl, rfl, fun h => h⟩
    | ok s1 =>
      obtain ⟨-, hstat, hsel, hls⟩ := on_message_ok_frame hm
      obtain ⟨ih1, ih2, ih3⟩ := ih s1
      refine ⟨by rw [ih1, hstat], by rw [ih2, hsel], ?_⟩
      intro h
      have h1 : lsInv s.selected_device s1.mqtt_last_status := by
        rcases hls with he | ⟨j, hj, hmj⟩
        · rw [he]; exact h
        · exact Or.inr ⟨j, hj, hmj⟩
      rw [← hsel] at h1 ⊢
      exact ih3 h1

/-- `_on_connect` touches only `mqtt_connected`. -/
theorem on_connect_frame (s : SessionState) (rc : Nat) :
    (on_connect s rc).mqtt_status = s.mqtt_status ∧
    (on_connect s rc).selected_device = s.selected_device ∧
    (on_connect s rc).mqtt_last_status = s.mqtt_last_status := by
  simp only [on_connect]
  split <;> exact ⟨rfl, rfl, rfl⟩

/-- One `client.loop` call only advances the pump index and lets the
callbacks run. -/
theorem pump_frame (env : Env) (st : RunSt) :
    PumpOnly st (resSt (pump env st)) ∧
    (resSt (pump env st)).pumpIdx = st.pumpIdx + 1 := by
  simp only [pump]
  cases hc : (env.pumps st.pumpIdx).connack with
  | none =>
    cases hm : pumpMsgs st.sess (env.pumps st.pumpIdx).msgs with
    | ok s2 =>
      have hf := pumpMsgs_frame (env.pumps st.pumpIdx).msgs st.sess
      rw [hm] at hf
      simp only [resSess] at hf
      exact ⟨⟨rfl, rfl, rfl, rfl, rfl, rfl, rfl, rfl, hf.2.1, hf.1,
        Nat.le_succ _, hf.2.2⟩, rfl⟩
    | error es =>
      obtain ⟨e, s2⟩ := es
      have hf := pumpMsgs_frame (env.pumps st.pumpIdx).msgs st.sess
      rw [hm] at hf
      simp only [resSess] at hf
      exact ⟨⟨rfl, rfl, rfl, rfl, rfl, rfl, rfl, rfl, hf.2.1, hf.1,
        Nat.le_succ _, hf.2.2⟩, rfl⟩
  | some rc =>
    obtain ⟨hcs, hcsel, hcls⟩ := on_connect_frame st.sess rc
    cases hm : pumpMsgs (on_connect st.sess rc) (env.pumps st.pumpIdx).msgs with
    | ok s2 =>
      have hf := pumpMsgs_frame (env.pumps st.pumpIdx).msgs (on_connect st.sess rc)
      rw [hm] at hf
      simp only [resSess] at hf
      refine ⟨⟨rfl, rfl, rfl, rfl, rfl, rfl, rfl, rfl,
        (hf.2.1.trans hcsel : _), (hf.1.trans hcs : _), Nat.le_succ _, ?_⟩, rfl⟩
      intro h
      have h1 : lsInv (on_connect st.sess rc).selected_device
          (on_connect st.sess rc).mqtt_last_status := by
        rw [hcsel, hcls]; exact h
      have h2 := hf.2.2 h1
      rw [hcsel] at h2
      exact h2
    | error es =>
      obtain ⟨e, s2⟩ := es
      have hf := pumpMsgs_frame (env.pumps st.pumpIdx).msgs (on_connect st.sess rc)
      rw [hm] at hf
      simp only [resSess] at hf
      refine ⟨⟨rfl, rfl, rfl, rfl, rfl, rfl, rfl, rfl,
        (hf.2.1.trans hcsel : _), (hf.1.trans hcs : _), Nat.le_succ _, ?_⟩, rfl⟩
      intro h
      have h1 : lsInv (on_connect st.sess rc).selected_device
          (on_connect st.sess rc).mqtt_last_status := by
        rw [hcsel, hcls]; exact h
      have h2 := hf.2.2 h1
      rw [hcsel] at h2
      exact h2

/-- Frame and bound of the connect-wait loop: at most `b` pump calls, only
pump effects, and a normal exit has either satisfied the condition or
exhausted the countdown. -/
theorem wait_conn_frame (env : Env) :
    ∀ (b : Nat) (st : RunSt),
      PumpOnly st (resSt (mqtt_wait_connection env st b)) ∧
      (resSt (mqtt_wait_connection env st b)).pumpIdx ≤ st.pumpIdx + b ∧
      (∀ st1, mqtt_wait_connection env st b = .ok st1 →
        st1.sess.mqtt_connected = true ∨ st1.pumpIdx = st.pumpIdx + b) := by
  intro b
  induction b with
  | zero =>
    intro st
    refine ⟨pumpOnly_refl st, Nat.le_refl _, ?_⟩
    intro st1 h
    cases h
    exact Or.inr rfl
  | succ b ih =>
    intro st
    simp only [mqtt_wait_connection]
    cases hc : st.sess.mqtt_connected with
    | true =>
      simp only [if_true]
      refine ⟨pumpOnly_refl st, Nat.le_add_right _ _, ?_⟩
      intro st1 h
      cases h
      exact Or.inl hc
    | false =>
      simp only [Bool.false_eq_true, if_false]
      cases hp : pump env st with
      | ok st1 =>
        have hf := pump_frame env st
        rw [hp] at hf
        simp only [resSt] at hf
        obtain ⟨ihPO, ihIdx, ihOk⟩ := ih st1
        refine ⟨pumpOnly_trans hf.1 ihPO, ?_, ?_⟩
        · calc (resSt (mqtt_wait_connection env st1 b)).pumpIdx
              ≤ st1.pumpIdx + b := ihIdx
            _ = st.pumpIdx + (b + 1) := by rw [hf.2]; omega
        · intro st2 h
          rcases ihOk st2 h with hcon | hidx
          · exact Or.inl hcon
          · right; rw [hidx, hf.2]; omega
      | error e =>
        have hf := pump_frame env st
        rw [hp] at hf
        simp only [resSt] at hf
        refine ⟨hf.1, ?_, ?_⟩
        · show e.2.pumpIdx ≤ st.pumpIdx + (b + 1)
          rw [hf.2]; omega
        · intro st1 h
          cases h

/-- Frame and bound of the response-wait loop (`mqtt_wait_response`). -/
theorem wait_resp_frame (env : Env) :
    ∀ (b : Nat) (st : RunSt),
      PumpOnly st (resSt (mqtt_wait_response env st b)) ∧
      (resSt (mqtt_wait_response env st b)).pumpIdx ≤ st.pumpIdx + b ∧
      (∀ st1, mqtt_wait_response env st b = .ok st1 →
        optJsonTruthy st1.sess.mqtt_last_status = true ∨ st1.pumpIdx = st.pumpIdx + b) := by
  intro b
  induction b with
  | zero =>
    intro st
    refine ⟨pumpOnly_refl st, Nat.le_refl _, ?_⟩
    intro st1 h
    cases h
    exact Or.inr rfl
  | succ b ih =>
    intro st
    simp only [mqtt_wait_response]
    cases hc : optJsonTruthy st.sess.mqtt_last_status with
    | true =>
      simp only [if_true]
      refine ⟨pumpOnly_refl st, Nat.le_add_right _ _, ?_⟩
      intro st1 h
      cases h
      exact Or.inl hc
    | false =>
      simp only [Bool.false_eq_true, if_false]
      cases hp : pump env st with
      | ok st1 =>
        have hf := pump_frame env st
        rw [hp] at hf
        simp only [resSt] at hf
        obtain ⟨ihPO, ihIdx, ihOk⟩ := ih st1
        refine ⟨pumpOnly_trans hf.1 ihPO, ?_, ?_⟩
        · calc (resSt (mqtt_wait_response env st1 b)).pumpIdx
              ≤ st1.pumpIdx + b := ihIdx
            _ = st.pumpIdx + (b + 1) := by rw [hf.2]; omega
        · intro st2 h
          rcases ihOk st2 h with hcon | hidx
          · exact Or.inl hcon
          · right; rw [hidx, hf.2]; omega
      | error e =>
        have hf := pump_frame env st
        rw [hp] at hf
        simp only [resSt] at hf
        refine ⟨hf.1, ?_, ?_⟩
        · show e.2.pumpIdx ≤ st.pumpIdx + (b + 1)
          rw [hf.2]; omega
        · intro st1 h
          cases h

/-- Frame and bound of the publish-confirmation wait loop: at most `b`
pump calls, the pump counter mirrors the number of loop calls made, and a
normal exit means the loop condition went false (`rc` non-zero, delivery
confirmed) or the countdown reached zero. -/
theorem wait_pub_frame (env : Env) (a : AttemptEnv) :
    ∀ (b : Nat) (st : RunSt) (p : Nat),
      PumpOnly st (resSt2 (wait_publish env a st p b)) ∧
      (resSt2 (wait_publish env a st p b)).pumpIdx ≤ st.pumpIdx + b ∧
      (∀ st1 p1, wait_publish env a st p b = .ok (st1, p1) →
        p ≤ p1 ∧ p1 ≤ p + b ∧ st1.pumpIdx + p = st.pumpIdx + p1 ∧
        (a.rc ≠ 0 ∨ isPublished a p1 = true ∨ p1 = p + b)) := by
  intro b
  induction b with
  | zero =>
    intro st p
    refine ⟨pumpOnly_refl st, Nat.le_refl _, ?_⟩
    intro st1 p1 h
    cases h
    exact ⟨Nat.le_refl _, Nat.le_refl _, rfl, Or.inr (Or.inr rfl)⟩
  | succ b ih =>
    intro st p
    simp only [wait_publish]
    cases hcond : a.rc == 0 && !isPublished a p with
    | false =>
      simp only [Bool.false_eq_true, if_false]
      refine ⟨pumpOnly_refl st, Nat.le_add_right _ _, ?_⟩
      intro st1 p1 h
      cases h
      refine ⟨Nat.le_refl _, Nat.le_add_right _ _, rfl, ?_⟩
      rcases Bool.and_eq_false_iff.mp hcond with h1 | h1
      · exact Or.inl (by simpa using h1)
      · exact Or.inr (Or.inl (by simpa using h1))
    | true =>
      simp only [if_true]
      cases hp : pump env st with
      | ok st1 =>
        have hf := pump_frame env st
        rw [hp] at hf
        simp only [resSt] at hf
        obtain ⟨ihPO, ihIdx, ihOk⟩ := ih st1 (p + 1)
        refine ⟨pumpOnly_trans hf.1 ihPO, ?_, ?_⟩
        · calc (resSt2 (wait_publish env a st1 (p + 1) b)).pumpIdx
              ≤ st1.pumpIdx + b := ihIdx
            _ = st.pumpIdx + (b + 1) := by rw [hf.2]; omega
        · intro st2 p2 h
          obtain ⟨h1, h2, h3, h4⟩ := ihOk st2 p2 h
          refine ⟨by omega, by omega, by rw [hf.2] at h3; omega, ?_⟩
          rcases h4 with h4 | h4 | h4
          · exact Or.inl h4
          · exact Or.inr (Or.inl h4)
          · exact Or.inr (Or.inr (by omega))
      | error e =>
        have hf := pump_frame env st
        rw [hp] at hf
        simp only [resSt] at hf
        refine ⟨hf.1, ?_, ?_⟩
        · show e.2.pumpIdx ≤ st.pumpIdx + (b + 1)
          rw [hf.2]; omega
        · intro st1 p1 h
          cases h

/-- C9: every bounded wait loop (connect wait, publish-confirmation wait,
response wait) makes at most `b` `client.loop` calls — the countdown is
decremented once per loop call whether or not that call made progress —
and a loop exits normally only because its condition holds or the
countdown reached zero. -/
theorem claim9_bounded_wait_loops (env : Env) (st : RunSt) (b : Nat) :
    ((resSt (mqtt_wait_connection env st b)).pumpIdx ≤ st.pumpIdx + b ∧
      ∀ st1, mqtt_wait_connection env st b = .ok st1 →
        st1.sess.mqtt_connected = true ∨ st1.pumpIdx = st.pumpIdx + b) ∧
    ((resSt (mqtt_wait_response env st b)).pumpIdx ≤ st.pumpIdx + b ∧
      ∀ st1, mqtt_wait_response env st b = .ok st1 →
        optJsonTruthy st1.sess.mqtt_last_status = true ∨ st1.pumpIdx = st.pumpIdx + b) ∧
    (∀ a : AttemptEnv,
      (resSt2 (wait_publish env a st 0 b)).pumpIdx ≤ st.pumpIdx + b ∧
      ∀ st1 p1, wait_publish env a st 0 b = .ok (st1, p1) →
        p1 ≤ b ∧ st1.pumpIdx = st.pumpIdx + p1 ∧
        (a.rc ≠ 0 ∨ isPublished a p1 = true ∨ p1 = b)) := by
  obtain ⟨-, hcIdx, hcOk⟩ := wait_conn_frame env b st
  obtain ⟨-, hrIdx, hrOk⟩ := wait_resp_frame env b st
  refine ⟨⟨hcIdx, hcOk⟩, ⟨hrIdx, hrOk⟩, ?_⟩
  intro a
  obtain ⟨-, hpIdx, hpOk⟩ := wait_pub_frame env a b st 0
  refine ⟨hpIdx, ?_⟩
  intro st1 p1 h
  obtain ⟨-, h2, h3, h4⟩ := hpOk st1 p1 h
  exact ⟨by omega, by omega, by simpa using h4⟩

/- ## Concrete environments used by witnesses and counterexamples -/

/-- A quiet broker: every pump call delivers nothing; every publish
attempt has `rc = 0` and is confirmed immediately; nothing raises. -/
def quietEnv : Env :=
  { acquireErr := none,
    pumps := fun _ => { connack := none, msgs := [] },
    attempts := fun _ =>
      { subErr := none, pubErr := none, rc := 0, pubAt := some 0, reconErr := none } }

/-- A concrete disconnected session with `cam-1` selected. -/
def s0disc : SessionState :=
  { mqtt_connected := false, mqtt_status := none, mqtt_last_status := none,
    selected_device := some "cam-1" }

/-- A concrete connected session with `cam-1` selected and a stale record. -/
def s0conn : SessionState :=
  { mqtt_connected := true, mqtt_status := none,
    mqtt_last_status := some (.obj [("device_id", .str "cam-1"), ("stale", .bool true)]),
    selected_device := some "cam-1" }

/-- C9 witness: the three loops at budget 5 on the quiet broker obey the
bounds of `claim9_bounded_wait_loops`. -/
theorem claim9_witness :
    ((resSt (mqtt_wait_connection quietEnv (initRun s0disc) 5)).pumpIdx ≤
      (initRun s0disc).pumpIdx + 5) ∧
    ((resSt (mqtt_wait_connection quietEnv (initRun s0disc) 5)).sess.mqtt_connected = true ∨
      (resSt (mqtt_wait_connection quietEnv (initRun s0disc) 5)).pumpIdx =
        (initRun s0disc).pumpIdx + 5) ∧
    ((resSt (mqtt_wait_response quietEnv (initRun s0disc) 5)).pumpIdx ≤
      (initRun s0disc).pumpIdx + 5) ∧
    (optJsonTruthy (resSt (mqtt_wait_response quietEnv (initRun s0disc) 5)).sess.mqtt_last_status = true ∨
      (resSt (mqtt_wait_response quietEnv (initRun s0disc) 5)).pumpIdx =
        (initRun s0disc).pumpIdx + 5) ∧
    (0 ≤ 5 ∧ (initRun s0disc).pumpIdx = (initRun s0disc).pumpIdx + 0 ∧
      ((quietEnv.attempts 0).rc ≠ 0 ∨ isPublished (quietEnv.attempts 0) 0 = true ∨ 0 = 5)) := by
  obtain ⟨⟨h1, h2⟩, ⟨h3, h4⟩, h5⟩ := claim9_bounded_wait_loops quietEnv (initRun s0disc) 5
  obtain ⟨h6, h7⟩ := h5 (quietEnv.attempts 0)
  exact ⟨h1, h2 _ rfl, h3, h4 _ rfl, h7 (initRun s0disc) 0 rfl⟩

def resSt3 : Except (String × RunSt) (RunSt × Option (Nat × Nat)) → RunSt
  | .ok (st, _) => st
  | .error (_, st) => st

/-- An inbound message the listener handles without raising whatever the
session state is: right topic, decodable payload, `device_id` present. -/
def msgSafe (m : InMsg) : Prop :=
  m.topic = MQTT_TOPIC_STATUS ∧ ∃ j, m.payload = some j ∧ (j.getField "device_id").isSome

/-- A transport oracle whose inbound traffic never makes a callback raise. -/
def envSafe (env : Env) : Prop :=
  ∀ k, ∀ m ∈ (env.pumps k).msgs, msgSafe m

theorem on_message_safe (s : SessionState) (m : InMsg) (h : msgSafe m) :
    ∃ s1, on_message s m = .ok s1 := by
  obtain ⟨ht, j, hp, hg⟩ := h
  rw [Option.isSome_iff_exists] at hg
  obtain ⟨v, hv⟩ := hg
  simp only [on_message, ht, bne_self_eq_false, Bool.false_eq_true, if_false, hp, hv]
  cases hsel : !optStrTruthy s.selected_device with
  | true => exact ⟨s, by simp⟩
  | false =>
    simp only [Bool.false_eq_true, if_false]
    cases hb : !v.eqStr (s.selected_device.getD "") with
    | true => exact ⟨s, by simp [hb]⟩
    | false => exact ⟨{ s with mqtt_last_status := some j }, by simp [hb]⟩

theorem pumpMsgs_safe :
    ∀ (msgs : List InMsg) (s : SessionState), (∀ m ∈ msgs, msgSafe m) →
      ∃ s1, pumpMsgs s msgs = .ok s1 := by
  intro msgs
  induction msgs with
  | nil => exact fun s _ => ⟨s, rfl⟩
  | cons m rest ih =>
    intro s hAll
    obtain ⟨s1, hs1⟩ := on_message_safe s m (hAll m (by simp))
    obtain ⟨s2, hs2⟩ := ih s1 (fun m hm => hAll m (by simp [hm]))
    exact ⟨s2, by simp only [pumpMsgs, hs1, hs2]⟩

theorem pump_safe {env : Env} (hs : envSafe env) (st : RunSt) :
    ∃ st1, pump env st = .ok st1 := by
  obtain ⟨s1, hs1⟩ := pumpMsgs_safe (env.pumps st.pumpIdx).msgs
    (match (env.pumps st.pumpIdx).connack with
      | some rc => on_connect st.sess rc
      | none => st.sess)
    (fun m hm => hs st.pumpIdx m hm)
  refine ⟨{ st with
      sess := s1, pumpIdx := st.pumpIdx + 1 }, ?_⟩
  simp only [pump, hs1]

theorem wait_conn_safe {env : Env} (hs : envSafe env) :
    ∀ (b : Nat) (st : RunSt), ∃ st1, mqtt_wait_connection env st b = .ok st1 := by
  intro b
  induction b with
  | zero => exact fun st => ⟨st, rfl⟩
  | succ b ih =>
    intro st
    simp only [mqtt_wait_connection]
    cases hc : st.sess.mqtt_connected with
    | true => exact ⟨st, by simp⟩
    | false =>
      obtain ⟨st1, hp⟩ := pump_safe hs st
      obtain ⟨st2, h2⟩ := ih st1
      exact ⟨st2, by simp only [Bool.false_eq_true, if_false, hp, h2]⟩

theorem wait_resp_safe {env : Env} (hs : envSafe env) :
    ∀ (b : Nat) (st : RunSt), ∃ st1, mqtt_wait_response env st b = .ok st1 := by
  intro b
  induction b with
  | zero => exact fun st => ⟨st, rfl⟩
  | succ b ih =>
    intro st
    simp only [mqtt_wait_response]
    cases hc : optJsonTruthy st.sess.mqtt_last_status with
    | true => exact ⟨st, by simp⟩
    | false =>
      obtain ⟨st1, hp⟩ := pump_safe hs st
      obtain ⟨st2, h2⟩ := ih st1
      exact ⟨st2, by simp only [Bool.false_eq_true, if_false, hp, h2]⟩

theorem wait_pub_safe {env : Env} (a : AttemptEnv) (hs : envSafe env) :
    ∀ (b : Nat) (st : RunSt) (p : Nat),
      ∃ st1 p1, wait_publish env a st p b = .ok (st1, p1) := by
  intro b
  induction b with
  | zero => exact fun st p => ⟨st, p, rfl⟩
  | succ b ih =>
    intro st p
    simp only [wait_publish]
    cases hc : a.rc == 0 && !isPublished a p with
    | false => exact ⟨st, p, by simp⟩
    | true =>
      obtain ⟨st1, hp⟩ := pump_safe hs st
      obtain ⟨st2, p2, h2⟩ := ih st1 (p + 1)
      exact ⟨st2, p2, by simp only [if_true, hp, h2]⟩

/-- What any execution of the retry loop (normal or raising) guarantees,
relative to its entry state: it appends at most `retry` publish events, all
with the given topic and message; it only appends to the status log; it never
touches `bridgeLsWrites`, `respWaitEntered` or the selected device; it
preserves the `mqtt_last_status` invariant; and if every already-recorded
oldest publish snapshot was a cleared `last_status` (and the very first
publish can only happen on a cleared `last_status`), that stays true. -/
def RetryOut (t : String) (m : Json) (retry : Nat) (st r : RunSt) : Prop :=
  (∃ l, r.pubs = l ++ st.pubs ∧ l.length ≤ retry ∧
    ∀ p ∈ l, p.topic = t ∧ p.message = m) ∧
  (∃ l, r.statusLog = l ++ st.statusLog) ∧
  r.bridgeLsWrites = st.bridgeLsWrites ∧
  r.respWaitEntered = st.respWaitEntered ∧
  r.sess.selected_device = st.sess.selected_device ∧
  (lsInv st.sess.selected_device st.sess.mqtt_last_status →
    lsInv st.sess.selected_device r.sess.mqtt_last_status) ∧
  (((∀ p, st.pubs.getLast? = some p → p.snapLastStatus = none) ∧
      (st.pubs = [] → st.sess.mqtt_last_status = none)) →
    ∀ p, r.pubs.getLast? = some p → p.snapLastStatus = none) ∧
  (r.confirmSnapRecon = st.confirmSnapRecon ∨ r.pubs ≠ [])

theorem retryOut_of_pumpOnly (t : String) (m : Json) (retry : Nat)
    {st r : RunSt} (h : PumpOnly st r) : RetryOut t m retry st r := by
  refine ⟨⟨[], by simp [h.pubs], by simp, by simp⟩, ⟨[], by simp [h.statusLog]⟩,
    h.bridgeLsWrites, h.respWaitEntered, h.selected, h.ls, ?_,
    Or.inl h.confirmSnapRecon⟩
  intro hc p hp
  rw [h.pubs] at hp
  exact hc.1 p hp

theorem retryOut_compose_frame {t : String} {m : Json} {retry : Nat}
    {st st2 r : RunSt}
    (hrest : RetryOut t m retry st2 r)
    (hne : st.pubs ≠ [])
    (h2pubs : st2.pubs = st.pubs)
    (h2log : ∃ l2, st2.statusLog = l2 ++ st.statusLog)
    (h2b : st2.bridgeLsWrites = st.bridgeLsWrites)
    (h2r : st2.respWaitEntered = st.respWaitEntered)
    (h2sel : st2.sess.selected_device = st.sess.selected_device)
    (h2ls : lsInv st.sess.selected_device st.sess.mqtt_last_status →
      lsInv st.sess.selected_device st2.sess.mqtt_last_status)
    (h2conf : st2.confirmSnapRecon = st.confirmSnapRecon) :
    RetryOut t m retry st r := by
  obtain ⟨⟨l, hl, hlen, hmem⟩, ⟨l2, hlog⟩, hb, hrw, hsel, hls, hfp, hcf⟩ := hrest
  obtain ⟨l3, hlog3⟩ := h2log
  refine ⟨⟨l, by rw [hl, h2pubs], hlen, hmem⟩,
    ⟨l2 ++ l3, by rw [hlog, hlog3, List.append_assoc]⟩,
    by rw [hb, h2b], by rw [hrw, h2r], by rw [hsel, h2sel], ?_, ?_,
    by rcases hcf with hcf | hcf
       · exact Or.inl (hcf.trans h2conf)
       · exact Or.inr hcf⟩
  · intro h
    have h1 := h2ls h
    rw [← h2sel] at h1
    have h2 := hls h1
    rw [h2sel] at h2
    exact h2
  · intro hc p hp
    refine hfp ⟨?_, ?_⟩ p hp
    · intro q hq
      rw [h2pubs] at hq
      exact hc.1 q hq
    · intro hq
      rw [h2pubs] at hq
      exact absurd hq hne

theorem retryOut_compose {t : String} {m : Json} {retry : Nat}
    {st st2 r : RunSt} {pe : PubEv}
    (hrest : RetryOut t m retry st2 r)
    (h2pubs : st2.pubs = pe :: st.pubs)
    (hpe1 : pe.topic = t) (hpe2 : pe.message = m)
    (hpe3 : pe.snapLastStatus = st.sess.mqtt_last_status)
    (h2log : ∃ l2, st2.statusLog = l2 ++ st.statusLog)
    (h2b : st2.bridgeLsWrites = st.bridgeLsWrites)
    (h2r : st2.respWaitEntered = st.respWaitEntered)
    (h2sel : st2.sess.selected_device = st.sess.selected_device)
    (h2ls : lsInv st.sess.selected_device st.sess.mqtt_last_status →
      lsInv st.sess.selected_device st2.sess.mqtt_last_status) :
    RetryOut t m (retry + 1) st r := by
  obtain ⟨⟨l, hl, hlen, hmem⟩, ⟨l2, hlog⟩, hb, hrw, hsel, hls, hfp, hcf⟩ := hrest
  obtain ⟨l3, hlog3⟩ := h2log
  refine ⟨⟨l ++ [pe], by rw [hl, h2pubs]; simp, by simp; omega, ?_⟩,
    ⟨l2 ++ l3, by rw [hlog, hlog3, List.append_assoc]⟩,
    by rw [hb, h2b], by rw [hrw, h2r], by rw [hsel, h2sel], ?_, ?_,
    Or.inr (by rw [hl, h2pubs]; simp)⟩
  · intro p hp
    rcases List.mem_append.mp hp with hp | hp
    · exact hmem p hp
    · have hpe : p = pe := by simpa using hp
      rw [hpe]
      exact ⟨hpe1, hpe2⟩
  · intro h
    have h1 := h2ls h
    rw [← h2sel] at h1
    have h2 := hls h1
    rw [h2sel] at h2
    exact h2
  · intro hc p hp
    refine hfp ⟨?_, ?_⟩ p hp
    · intro q hq
      rw [h2pubs] at hq
      cases hsp : st.pubs with
      | nil =>
        rw [hsp] at hq
        have hqe : pe = q := by simpa using hq
        rw [← hqe, hpe3, hc.2 hsp]
      | cons x xs =>
        rw [hsp, List.getLast?_cons_cons] at hq
        exact hc.1 q (by rw [hsp]; exact hq)
    · intro hq
      rw [h2pubs] at hq
      exact absurd hq (List.cons_ne_nil pe st.pubs)

theorem retryOut_compose_pumpOnly {t : String} {m : Json} {retry : Nat}
    {st st2 r : RunSt}
    (hpo : PumpOnly st st2)
    (hne : st.pubs ≠ [])
    (hrest : RetryOut t m retry st2 r) :
    RetryOut t m retry st r :=
  retryOut_compose_frame hrest hne hpo.pubs ⟨[], by simp [hpo.statusLog]⟩
    hpo.bridgeLsWrites hpo.respWaitEntered hpo.selected hpo.ls
    hpo.confirmSnapRecon

/-- Any execution of the retry loop satisfies `RetryOut` relative to the
state it started in. -/
theorem retry_frame (env : Env) (t : String) (m : Json) :
    ∀ (retry : Nat) (st : RunSt) (i : Nat) (last0 : Option (Nat × Nat)),
      RetryOut t m retry st (resSt3 (retry_loop env t m st i retry last0)) := by
  intro retry
  induction retry with
  | zero =>
    intro st i last0
    exact retryOut_of_pumpOnly t m 0 (pumpOnly_refl st)
  | succ retry ih =>
    intro st i last0
    cases hsub : (env.attempts i).subErr with
    | some e =>
      simp only [retry_loop, hsub]
      exact retryOut_of_pumpOnly t m _ (pumpOnly_refl st)
    | none =>
      cases hpub : (env.attempts i).pubErr with
      | some e =>
        simp only [retry_loop, hsub, hpub]
        exact ⟨⟨[], by simp [resSt3], by simp, by simp⟩, ⟨[], by simp [resSt3]⟩,
          rfl, rfl, rfl, fun h => h, fun hc => hc.1, Or.inl rfl⟩
      | none =>
        simp only [retry_loop, hsub, hpub]
        cases hw : wait_publish env (env.attempts i)
            (mqtt_set_status (recordPublish { st with subCount := st.subCount + 1 } t m)
              "Sending message...") 0 5 with
        | error e =>
          simp only [hw]
          have hf := (wait_pub_frame env (env.attempts i) 5
            (mqtt_set_status (recordPublish { st with subCount := st.subCount + 1 } t m)
              "Sending message...") 0).1
          rw [hw] at hf
          simp only [resSt2] at hf
          exact retryOut_compose (retryOut_of_pumpOnly t m retry hf)
            rfl rfl rfl rfl ⟨["Sending message..."], rfl⟩ rfl rfl rfl (fun h => h)
        | ok pr =>
          obtain ⟨st3, p⟩ := pr
          simp only [hw]
          have hf := (wait_pub_frame env (env.attempts i) 5
            (mqtt_set_status (recordPublish { st with subCount := st.subCount + 1 } t m)
              "Sending message...") 0).1
          rw [hw] at hf
          simp only [resSt2] at hf
          have hne2 : (mqtt_set_status
              (recordPublish { st with subCount := st.subCount + 1 } t m)
              "Sending message...").pubs ≠ [] := List.cons_ne_nil _ _
          cases hip : isPublished (env.attempts i) p with
          | true =>
            simp only [hip, if_true]
            exact retryOut_compose
              (retryOut_compose_pumpOnly hf hne2
                ⟨⟨[], by simp [resSt3, mqtt_set_status], by simp, by simp⟩, ⟨[":clock3: 等待設備響應..."], rfl⟩,
                  rfl, rfl, rfl, fun h => h, fun hc => hc.1,
                  Or.inr (by
                    show st3.pubs ≠ []
                    rw [hf.pubs]
                    exact List.cons_ne_nil _ _)⟩)
              rfl rfl rfl rfl ⟨["Sending message..."], rfl⟩ rfl rfl rfl (fun h => h)
          | false =>
            simp only [hip, Bool.false_eq_true, if_false]
            cases hrc : (env.attempts i).rc != 0 with
            | false =>
              simp only [hrc, Bool.false_eq_true, if_false]
              exact retryOut_compose
                (retryOut_compose_pumpOnly hf hne2 (ih st3 (i + 1) (some (i, p))))
                rfl rfl rfl rfl ⟨["Sending message..."], rfl⟩ rfl rfl rfl (fun h => h)
            | true =>
              simp only [hrc, if_true]
              cases hrec : (env.attempts i).reconErr with
              | some e =>
                simp only [hrec]
                exact retryOut_compose
                  (retryOut_compose_pumpOnly hf hne2
                    ⟨⟨[], by simp [resSt3, mqtt_set_status], by simp, by simp⟩,
                      ⟨[":clock3: 正在重新連接..."], rfl⟩,
                      rfl, rfl, rfl, fun h => h, fun hc => hc.1, Or.inl rfl⟩)
                  rfl rfl rfl rfl ⟨["Sending message..."], rfl⟩ rfl rfl rfl (fun h => h)
              | none =>
                simp only [hrec]
                have hne3 : st3.pubs ≠ [] := by
                  rw [hf.pubs]
                  exact List.cons_ne_nil _ _
                cases hwc : mqtt_wait_connection env
                    { mqtt_set_status
                        { st3 with
                          sess := { st3.sess with mqtt_connected := false },
                          connFalseCount := st3.connFalseCount + 1 }
                        ":clock3: 正在重新連接..." with
                      reconCount := (mqtt_set_status
                        { st3 with
                          sess := { st3.sess with mqtt_connected := false },
                          connFalseCount := st3.connFalseCount + 1 }
                        ":clock3: 正在重新連接...").reconCount + 1 } 5 with
                | error e =>
                  simp only [hwc]
                  have hfc := (wait_conn_frame env 5
                    { mqtt_set_status
                        { st3 with
                          sess := { st3.sess with mqtt_connected := false },
                          connFalseCount := st3.connFalseCount + 1 }
                        ":clock3: 正在重新連接..." with
                      reconCount := (mqtt_set_status
                        { st3 with
                          sess := { st3.sess with mqtt_connected := false },
                          connFalseCount := st3.connFalseCount + 1 }
                        ":clock3: 正在重新連接...").reconCount + 1 }).1
                  rw [hwc] at hfc
                  simp only [resSt] at hfc
                  exact retryOut_compose
                    (retryOut_compose_pumpOnly hf hne2
                      (retryOut_compose_frame
                        (retryOut_of_pumpOnly t m retry hfc)
                        hne3 rfl ⟨[":clock3: 正在重新連接..."], rfl⟩
                        rfl rfl rfl (fun h => h) rfl))
                    rfl rfl rfl rfl ⟨["Sending message..."], rfl⟩ rfl rfl rfl (fun h => h)
                | ok st7 =>
                  simp only [hwc]
                  have hfc := (wait_conn_frame env 5
                    { mqtt_set_status
                        { st3 with
                          sess := { st3.sess with mqtt_connected := false },
                          connFalseCount := st3.connFalseCount + 1 }
                        ":clock3: 正在重新連接..." with
                      reconCount := (mqtt_set_status
                        { st3 with
                          sess := { st3.sess with mqtt_connected := false },
                          connFalseCount := st3.connFalseCount + 1 }
                        ":clock3: 正在重新連接...").reconCount + 1 }).1
                  rw [hwc] at hfc
                  simp only [resSt] at hfc
                  have hne6 : ({ mqtt_set_status
                        { st3 with
                          sess := { st3.sess with mqtt_connected := false },
                          connFalseCount := st3.connFalseCount + 1 }
                        ":clock3: 正在重新連接..." with
                      reconCount := (mqtt_set_status
                        { st3 with
                          sess := { st3.sess with mqtt_connected := false },
                          connFalseCount := st3.connFalseCount + 1 }
                        ":clock3: 正在重新連接...").reconCount + 1 } : RunSt).pubs ≠ [] := hne3
                  exact retryOut_compose
                    (retryOut_compose_pumpOnly hf hne2
                      (retryOut_compose_frame
                        (retryOut_compose_pumpOnly hfc hne6 (ih st7 (i + 1) (some (i, p))))
                        hne3 rfl ⟨[":clock3: 正在重新連接..."], rfl⟩
                        rfl rfl rfl (fun h => h) rfl))
                    rfl rfl rfl rfl ⟨["Sending message..."], rfl⟩ rfl rfl rfl (fun h => h)

/-- Characterization of a normally returning retry loop: with a positive
budget it always leaves a bound `msg_info` and a nonempty status log, and
`confirmSnapRecon` is set (to the reconnect count at confirmation time)
exactly when the `msg_info` it returns reports a confirmed delivery. -/
theorem retry_ok (env : Env) (t : String) (m : Json) :
    ∀ (retry : Nat) (st : RunSt) (i : Nat) (last0 : Option (Nat × Nat))
      (st1 : RunSt) (last : Option (Nat × Nat)),
      retry_loop env t m st i retry last0 = .ok (st1, last) →
      (retry = 0 → st1 = st ∧ last = last0) ∧
      (retry ≠ 0 → st1.statusLog ≠ [] ∧ last ≠ none) ∧
      (st.confirmSnapRecon = none →
        (∀ i1 p1, last0 = some (i1, p1) → isPublished (env.attempts i1) p1 = false) →
        ((∀ i1 p1, last = some (i1, p1) →
            (isPublished (env.attempts i1) p1 = true →
              st1.confirmSnapRecon = some st1.reconCount) ∧
            (isPublished (env.attempts i1) p1 = false →
              st1.confirmSnapRecon = none)) ∧
          (last = none → st1.confirmSnapRecon = none))) := by
  intro retry
  induction retry with
  | zero =>
    intro st i last0 st1 last h
    rw [retry_loop, Except.ok.injEq, Prod.mk.injEq] at h
    obtain ⟨h1, h2⟩ := h
    subst h1
    subst h2
    refine ⟨fun _ => ⟨rfl, rfl⟩, fun hr => absurd rfl hr, ?_⟩
    intro hconf hlast0
    refine ⟨?_, fun _ => hconf⟩
    intro i1 p1 hl
    refine ⟨?_, fun _ => hconf⟩
    intro hpub
    rw [hlast0 i1 p1 hl] at hpub
    cases hpub
  | succ retry ih =>
    intro st i last0 st1 last h
    cases hsub : (env.attempts i).subErr with
    | some e =>
      simp only [retry_loop, hsub] at h
      exact absurd h (by simp)
    | none =>
      cases hpub : (env.attempts i).pubErr with
      | some e =>
        simp only [retry_loop, hsub, hpub] at h
        exact absurd h (by simp)
      | none =>
        simp only [retry_loop, hsub, hpub] at h
        cases hw : wait_publish env (env.attempts i)
            (mqtt_set_status (recordPublish { st with subCount := st.subCount + 1 } t m)
              "Sending message...") 0 5 with
        | error e =>
          rw [hw] at h
          exact absurd h (by simp)
        | ok pr =>
          obtain ⟨st3, p⟩ := pr
          rw [hw] at h
          have hf := (wait_pub_frame env (env.attempts i) 5
            (mqtt_set_status (recordPublish { st with subCount := st.subCount + 1 } t m)
              "Sending message...") 0).1
          rw [hw] at hf
          simp only [resSt2] at hf
          cases hip : isPublished (env.attempts i) p with
          | true =>
            simp only [hip, if_true] at h
            rw [Except.ok.injEq, Prod.mk.injEq] at h
            obtain ⟨h1, h2⟩ := h
            subst h1
            subst h2
            refine ⟨fun hz => absurd hz (by simp), fun _ => ⟨List.cons_ne_nil _ _, by simp⟩, ?_⟩
            intro hconf hlast0
            refine ⟨?_, by simp⟩
            intro i1 p1 hl
            rw [Option.some.injEq, Prod.mk.injEq] at hl
            obtain ⟨hl1, hl2⟩ := hl
            subst hl1
            subst hl2
            exact ⟨fun _ => rfl, fun hfalse => absurd hip (by rw [hfalse]; simp)⟩
          | false =>
            simp only [hip, Bool.false_eq_true, if_false] at h
            cases hrc : (env.attempts i).rc != 0 with
            | false =>
              simp only [hrc, Bool.false_eq_true, if_false] at h
              have hih := ih st3 (i + 1) (some (i, p)) st1 last h
              refine ⟨fun hz => absurd hz (by simp), ?_, ?_⟩
              · intro _
                cases hretry : retry with
                | zero =>
                  obtain ⟨hst, hl⟩ := hih.1 hretry
                  subst hst
                  constructor
                  · rw [hf.statusLog]
                    exact List.cons_ne_nil _ _
                  · rw [hl]
                    simp
                | succ n =>
                  exact hih.2.1 (by simp [hretry])
              · intro hconf hlast0
                refine hih.2.2 ?_ ?_
                · rw [hf.confirmSnapRecon]
                  exact hconf
                · intro i1 p1 hl
                  rw [Option.some.injEq, Prod.mk.injEq] at hl
                  obtain ⟨hl1, hl2⟩ := hl
                  subst hl1
                  subst hl2
                  exact hip
            | true =>
              simp only [hrc, if_true] at h
              cases hrec : (env.attempts i).reconErr with
              | some e =>
                rw [hrec] at h
                exact absurd h (by simp)
              | none =>
                rw [hrec] at h
                cases hwc : mqtt_wait_connection env
                    { mqtt_set_status
                        { st3 with
                          sess := { st3.sess with mqtt_connected := false },
                          connFalseCount := st3.connFalseCount + 1 }
                        ":clock3: 正在重新連接..." with
                      reconCount := (mqtt_set_status
                        { st3 with
                          sess := { st3.sess with mqtt_connected := false },
                          connFalseCount := st3.connFalseCount + 1 }
                        ":clock3: 正在重新連接...").reconCount + 1 } 5 with
                | error e =>
                  rw [hwc] at h
                  exact absurd h (by simp)
                | ok st7 =>
                  rw [hwc] at h
                  have hfc := (wait_conn_frame env 5
                    { mqtt_set_status
                        { st3 with
                          sess := { st3.sess with mqtt_connected := false },
                          connFalseCount := st3.connFalseCount + 1 }
                        ":clock3: 正在重新連接..." with
                      reconCount := (mqtt_set_status
                        { st3 with
                          sess := { st3.sess with mqtt_connected := false },
                          connFalseCount := st3.connFalseCount + 1 }
                        ":clock3: 正在重新連接...").reconCount + 1 }).1
                  rw [hwc] at hfc
                  simp only [resSt] at hfc
                  have hih := ih st7 (i + 1) (some (i, p)) st1 last h
                  refine ⟨fun hz => absurd hz (by simp), ?_, ?_⟩
                  · intro _
                    cases hretry : retry with
                    | zero =>
                      obtain ⟨hst, hl⟩ := hih.1 hretry
                      subst hst
                      constructor
                      · rw [hfc.statusLog]
                        exact List.cons_ne_nil _ _
                      · rw [hl]
                        simp
                    | succ n =>
                      exact hih.2.1 (by simp [hretry])
                  · intro hconf hlast0
                    refine hih.2.2 ?_ ?_
                    · rw [hfc.confirmSnapRecon]
                      show st3.confirmSnapRecon = none
                      rw [hf.confirmSnapRecon]
                      exact hconf
                    · intro i1 p1 hl
                      rw [Option.some.injEq, Prod.mk.injEq] at hl
                      obtain ⟨hl1, hl2⟩ := hl
                      subst hl1
                      subst hl2
                      exact hip

/-- A record the listener stored is a nonempty JSON object, hence truthy. -/
theorem matchesSelected_truthy {sel : Option String} {j : Json}
    (h : matchesSelected sel j) : j.truthy = true := by
  obtain ⟨v, hv, -⟩ := h
  cases j with
  | obj fields =>
    cases fields with
    | nil => simp [Json.getField, List.lookup] at hv
    | cons a l => simp [Json.truthy]
  | null => simp [Json.getField] at hv
  | bool b => simp [Json.getField] at hv
  | num n => simp [Json.getField] at hv
  | str s => simp [Json.getField] at hv
  | arr l => simp [Json.getField] at hv

/-- Under the `last_status` invariant, a falsy `last_status` is `none`. -/
theorem lsInv_none_of_falsy {sel : Option String} {ls : Option Json}
    (h : lsInv sel ls) (hf : optJsonTruthy ls = false) : ls = none := by
  rcases h with h | ⟨j, hj, hm⟩
  · exact h
  · rw [hj] at hf
    rw [optJsonTruthy, matchesSelected_truthy hm] at hf
    cases hf

/-- Everything the claims need about the tail of the bridge (clear, retry
loop, response wait), for an entry state with no publishes, no bridge
writes and no confirmation recorded yet. -/
theorem tail_main (env : Env) (t : String) (m : Json) (stc : RunSt)
    (hpubs : stc.pubs = []) (hbw : stc.bridgeLsWrites = [])
    (hconf : stc.confirmSnapRecon = none) :
    (resSt (send_after_connect env t m stc)).pubs.length ≤ 2 ∧
    (∀ p ∈ (resSt (send_after_connect env t m stc)).pubs,
      p.topic = t ∧ p.message = m) ∧
    (∀ v ∈ (resSt (send_after_connect env t m stc)).bridgeLsWrites, v = none) ∧
    (∀ p, (resSt (send_after_connect env t m stc)).pubs.getLast? = some p →
      p.snapLastStatus = none) ∧
    ((resSt (send_after_connect env t m stc)).confirmSnapRecon.isSome = true →
      (resSt (send_after_connect env t m stc)).pubs ≠ []) ∧
    (resSt (send_after_connect env t m stc)).sess.selected_device =
      stc.sess.selected_device ∧
    (∀ r1, send_after_connect env t m stc = .ok r1 →
      lsInv stc.sess.selected_device r1.sess.mqtt_last_status ∧
      r1.statusLog ≠ [] ∧
      (r1.confirmSnapRecon.isSome = true →
        optJsonTruthy r1.sess.mqtt_last_status = false →
        r1.sess.mqtt_status = some ":red_circle: 設備無響應" ∧
        r1.sess.mqtt_last_status = none ∧
        r1.confirmSnapRecon = some r1.reconCount)) := by
  have hr := retry_frame env t m 2 (clearStep stc) 0 none
  obtain ⟨⟨l, hl, hlen, hmem⟩, ⟨l2, hlog⟩, hb, hrw, hsel, hls, hfp, hcf⟩ := hr
  have hstdFp : (∀ p, (clearStep stc).pubs.getLast? = some p →
        p.snapLastStatus = none) ∧
      ((clearStep stc).pubs = [] → (clearStep stc).sess.mqtt_last_status = none) := by
    constructor
    · intro p hp
      rw [show (clearStep stc).pubs = stc.pubs from rfl, hpubs] at hp
      simp at hp
    · intro _
      rfl
  cases hrl : retry_loop env t m (clearStep stc) 0 2 none with
  | error e =>
    rw [hrl] at hl hlog hb hrw hsel hls hfp hcf
    simp only [resSt3] at hl hlog hb hrw hsel hls hfp hcf
    simp only [send_after_connect, hrl]
    simp only [resSt]
    have hple : e.2.pubs = l := by
      rw [hl]
      show l ++ stc.pubs = l
      rw [hpubs, List.append_nil]
    refine ⟨by rw [hple]; exact hlen, ?_, ?_, hfp hstdFp, ?_, by exact hsel, ?_⟩
    · intro p hp
      rw [hple] at hp
      exact hmem p hp
    · intro v hv
      rw [hb] at hv
      rw [show (clearStep stc).bridgeLsWrites = none :: stc.bridgeLsWrites from rfl,
        hbw] at hv
      simpa using hv
    · intro hcs
      rcases hcf with hcfl | hcfr
      · rw [hcfl] at hcs
        rw [show (clearStep stc).confirmSnapRecon = stc.confirmSnapRecon from rfl,
          hconf] at hcs
        cases hcs
      · exact hcfr
    · intro r1 h1
      cases h1
  | ok pr =>
    obtain ⟨str, last⟩ := pr
    rw [hrl] at hl hlog hb hrw hsel hls hfp hcf
    simp only [resSt3] at hl hlog hb hrw hsel hls hfp hcf
    have hok := retry_ok env t m 2 (clearStep stc) 0 none str last hrl
    obtain ⟨hlogne, hlne⟩ := hok.2.1 (by simp)
    have hple : str.pubs = l := by
      rw [hl]
      show l ++ stc.pubs = l
      rw [hpubs, List.append_nil]
    have hchar := hok.2.2 (by rw [show (clearStep stc).confirmSnapRecon
        = stc.confirmSnapRecon from rfl, hconf]) (fun i1 p1 h => by cases h)
    cases last with
    | none => exact absurd rfl hlne
    | some ip =>
      obtain ⟨i, p⟩ := ip
      obtain ⟨hcT, hcF⟩ := hchar.1 i p rfl
      have hlsStr : lsInv stc.sess.selected_device str.sess.mqtt_last_status :=
        hls (Or.inl rfl)
      cases hip : isPublished (env.attempts i) p with
      | false =>
        simp only [send_after_connect, hrl, hip, Bool.not_false, if_true]
        simp only [resSt]
        refine ⟨?_, ?_, ?_, ?_, ?_, ?_, ?_⟩
        · show str.pubs.length ≤ 2
          rw [hple]; exact hlen
        · intro p1 hp1
          rw [show (mqtt_set_status str ":o: Message failed").pubs = str.pubs from rfl,
            hple] at hp1
          exact hmem p1 hp1
        · intro v hv
          rw [show (mqtt_set_status str ":o: Message failed").bridgeLsWrites
              = str.bridgeLsWrites from rfl, hb] at hv
          rw [show (clearStep stc).bridgeLsWrites = none :: stc.bridgeLsWrites from rfl,
            hbw] at hv
          simpa using hv
        · show ∀ p1, str.pubs.getLast? = some p1 → p1.snapLastStatus = none
          exact hfp hstdFp
        · intro hcs
          rw [show (mqtt_set_status str ":o: Message failed").confirmSnapRecon
              = str.confirmSnapRecon from rfl, hcF hip] at hcs
          cases hcs
        · show str.sess.selected_device = stc.sess.selected_device
          exact hsel
        · intro r1 h1
          rw [Except.ok.injEq] at h1
          subst h1
          refine ⟨hlsStr, List.cons_ne_nil _ _, ?_⟩
          intro hcs
          rw [show (mqtt_set_status str ":o: Message failed").confirmSnapRecon
              = str.confirmSnapRecon from rfl, hcF hip] at hcs
          cases hcs
      | true =>
        have hpubsne : str.pubs ≠ [] := by
          rcases hcf with hcfl | hcfr
          · rw [hcT hip] at hcfl
            rw [show (clearStep stc).confirmSnapRecon = stc.confirmSnapRecon from rfl,
              hconf] at hcfl
            cases hcfl
          · exact hcfr
        have hfr := (wait_resp_frame env 5 { str with respWaitEntered := true }).1
        cases hwr : mqtt_wait_response env { str with respWaitEntered := true } 5 with
        | error e =>
          rw [hwr] at hfr
          simp only [resSt] at hfr
          simp only [send_after_connect, hrl, hip, Bool.not_true, Bool.false_eq_true,
            if_false, hwr]
          simp only [resSt]
          refine ⟨?_, ?_, ?_, ?_, ?_, ?_, ?_⟩
          · rw [hfr.pubs]
            show str.pubs.length ≤ 2
            rw [hple]; exact hlen
          · intro p1 hp1
            rw [hfr.pubs] at hp1
            rw [show ({ str with respWaitEntered := true } : RunSt).pubs = str.pubs
              from rfl, hple] at hp1
            exact hmem p1 hp1
          · intro v hv
            rw [hfr.bridgeLsWrites] at hv
            rw [show ({ str with respWaitEntered := true } : RunSt).bridgeLsWrites
                = str.bridgeLsWrites from rfl, hb] at hv
            rw [show (clearStep stc).bridgeLsWrites = none :: stc.bridgeLsWrites from rfl,
              hbw] at hv
            simpa using hv
          · intro p1 hp1
            rw [hfr.pubs] at hp1
            exact hfp hstdFp p1 hp1
          · intro _
            rw [hfr.pubs]
            show str.pubs ≠ []
            exact hpubsne
          · rw [hfr.selected]
            show str.sess.selected_device = stc.sess.selected_device
            exact hsel
          · intro r1 h1
            cases h1
        | ok stz =>
          rw [hwr] at hfr
          simp only [resSt] at hfr
          have hlsz : lsInv stc.sess.selected_device stz.sess.mqtt_last_status := by
            have h1 : lsInv ({ str with respWaitEntered := true } : RunSt).sess.selected_device
                ({ str with respWaitEntered := true } : RunSt).sess.mqtt_last_status := by
              show lsInv str.sess.selected_device str.sess.mqtt_last_status
              rw [hsel]
              exact hlsStr
            have h2 := hfr.ls h1
            rw [show ({ str with respWaitEntered := true } : RunSt).sess.selected_device
                = str.sess.selected_device from rfl, hsel] at h2
            exact h2
          cases htr : optJsonTruthy stz.sess.mqtt_last_status with
          | false =>
            simp only [send_after_connect, hrl, hip, Bool.not_true, Bool.false_eq_true,
              if_false, hwr, htr, Bool.not_false, if_true]
            simp only [resSt]
            refine ⟨?_, ?_, ?_, ?_, ?_, ?_, ?_⟩
            · show stz.pubs.length ≤ 2
              rw [hfr.pubs]
              show str.pubs.length ≤ 2
              rw [hple]; exact hlen
            · intro p1 hp1
              rw [show (mqtt_set_status stz ":red_circle: 設備無響應").pubs = stz.pubs
                  from rfl, hfr.pubs] at hp1
              rw [show ({ str with respWaitEntered := true } : RunSt).pubs = str.pubs
                from rfl, hple] at hp1
              exact hmem p1 hp1
            · intro v hv
              rw [show (mqtt_set_status stz ":red_circle: 設備無響應").bridgeLsWrites
                  = stz.bridgeLsWrites from rfl, hfr.bridgeLsWrites] at hv
              rw [show ({ str with respWaitEntered := true } : RunSt).bridgeLsWrites
                  = str.bridgeLsWrites from rfl, hb] at hv
              rw [show (clearStep stc).bridgeLsWrites = none :: stc.bridgeLsWrites
                from rfl, hbw] at hv
              simpa using hv
            · intro p1 hp1
              rw [show (mqtt_set_status stz ":red_circle: 設備無響應").pubs = stz.pubs
                  from rfl, hfr.pubs] at hp1
              exact hfp hstdFp p1 hp1
            · intro _
              show stz.pubs ≠ []
              rw [hfr.pubs]
              show str.pubs ≠ []
              exact hpubsne
            · show stz.sess.selected_device = stc.sess.selected_device
              rw [hfr.selected]
              show str.sess.selected_device = stc.sess.selected_device
              exact hsel
            · intro r1 h1
              rw [Except.ok.injEq] at h1
              subst h1
              have hzn : stz.sess.mqtt_last_status = none :=
                lsInv_none_of_falsy hlsz htr
              refine ⟨?_, List.cons_ne_nil _ _, ?_⟩
              · show lsInv stc.sess.selected_device stz.sess.mqtt_last_status
                exact hlsz
              · intro _ _
                refine ⟨rfl, hzn, ?_⟩
                show stz.confirmSnapRecon = some stz.reconCount
                rw [hfr.confirmSnapRecon, hfr.reconCount]
                show str.confirmSnapRecon = some str.reconCount
                exact hcT hip
          | true =>
            simp only [send_after_connect, hrl, hip, Bool.not_true, Bool.false_eq_true,
              if_false, hwr, htr]
            simp only [resSt]
            refine ⟨?_, ?_, ?_, ?_, ?_, ?_, ?_⟩
            · show stz.pubs.length ≤ 2
              rw [hfr.pubs]
              show str.pubs.length ≤ 2
              rw [hple]; exact hlen
            · intro p1 hp1
              rw [show stz.pubs = ({ str with respWaitEntered := true } : RunSt).pubs
                  from hfr.pubs] at hp1
              rw [show ({ str with respWaitEntered := true } : RunSt).pubs = str.pubs
                from rfl, hple] at hp1
              exact hmem p1 hp1
            · intro v hv
              rw [hfr.bridgeLsWrites] at hv
              rw [show ({ str with respWaitEntered := true } : RunSt).bridgeLsWrites
                  = str.bridgeLsWrites from rfl, hb] at hv
              rw [show (clearStep stc).bridgeLsWrites = none :: stc.bridgeLsWrites
                from rfl, hbw] at hv
              simpa using hv
            · intro p1 hp1
              rw [hfr.pubs] at hp1
              exact hfp hstdFp p1 hp1
            · intro _
              show stz.pubs ≠ []
              rw [hfr.pubs]
              show str.pubs ≠ []
              exact hpubsne
            · show stz.sess.selected_device = stc.sess.selected_device
              rw [hfr.selected]
              show str.sess.selected_device = stc.sess.selected_device
              exact hsel
            · intro r1 h1
              rw [Except.ok.injEq] at h1
              subst h1
              refine ⟨hlsz, ?_, ?_⟩
              · show stz.statusLog ≠ []
                rw [hfr.statusLog]
                show str.statusLog ≠ []
                exact hlogne
              · intro _ hfalse
                rw [htr] at hfalse
                cases hfalse

/-- `tail_main` lifted through the acquire and connect phases to the whole
core of `send_mqtt_message_wait_response`. -/
theorem core_resSt_main (env : Env) (s0 : SessionState) (t : String) (m : Json) :
    (resSt (send_mqtt_message_core env s0 t m)).pubs.length ≤ 2 ∧
    (∀ p ∈ (resSt (send_mqtt_message_core env s0 t m)).pubs,
      p.topic = t ∧ p.message = m) ∧
    (∀ v ∈ (resSt (send_mqtt_message_core env s0 t m)).bridgeLsWrites, v = none) ∧
    (∀ p, (resSt (send_mqtt_message_core env s0 t m)).pubs.getLast? = some p →
      p.snapLastStatus = none) ∧
    ((resSt (send_mqtt_message_core env s0 t m)).confirmSnapRecon.isSome = true →
      (resSt (send_mqtt_message_core env s0 t m)).pubs ≠ []) ∧
    (∀ r1, send_mqtt_message_core env s0 t m = .ok r1 →
      lsInv s0.selected_device r1.sess.mqtt_last_status ∧
      r1.statusLog ≠ [] ∧
      (r1.confirmSnapRecon.isSome = true →
        optJsonTruthy r1.sess.mqtt_last_status = false →
        r1.sess.mqtt_status = some ":red_circle: 設備無響應" ∧
        r1.sess.mqtt_last_status = none ∧
        r1.confirmSnapRecon = some r1.reconCount)) := by
  cases ha : env.acquireErr with
  | some e =>
    simp only [send_mqtt_message_core, ha]
    simp only [resSt]
    refine ⟨by simp [initRun], by simp [initRun], by simp [initRun], ?_, ?_, ?_⟩
    · intro p hp
      rw [show (initRun s0).pubs = [] from rfl] at hp
      simp at hp
    · intro hcs
      rw [show (initRun s0).confirmSnapRecon = none from rfl] at hcs
      cases hcs
    · intro r1 h1
      cases h1
  | none =>
    cases hS0 : s0.mqtt_connected with
    | true =>
      simp only [send_mqtt_message_core, ha, hS0, Bool.not_true, Bool.false_eq_true,
        if_false]
      obtain ⟨hA, hB, hC, hD, hF, -, hG⟩ := tail_main env t m (initRun s0) rfl rfl rfl
      exact ⟨hA, hB, hC, hD, hF, hG⟩
    | false =>
      simp only [send_mqtt_message_core, ha, hS0, Bool.not_false, if_true]
      have hfc := (wait_conn_frame env 5 (mqtt_set_status (initRun s0) "正在連接...")).1
      cases hwc : mqtt_wait_connection env
          (mqtt_set_status (initRun s0) "正在連接...") 5 with
      | error e =>
        rw [hwc] at hfc
        simp only [resSt] at hfc
        simp only [hwc]
        simp only [resSt]
        refine ⟨?_, ?_, ?_, ?_, ?_, ?_⟩
        · rw [hfc.pubs]
          show List.length ([] : List PubEv) ≤ 2
          simp
        · intro p hp
          rw [hfc.pubs] at hp
          simp only [show (mqtt_set_status (initRun s0) "正在連接...").pubs = [] from rfl] at hp
          simp at hp
        · intro v hv
          rw [hfc.bridgeLsWrites] at hv
          simp only [show (mqtt_set_status (initRun s0) "正在連接...").bridgeLsWrites = []
            from rfl] at hv
          simp at hv
        · intro p hp
          rw [hfc.pubs] at hp
          simp only [show (mqtt_set_status (initRun s0) "正在連接...").pubs = [] from rfl] at hp
          simp at hp
        · intro hcs
          rw [hfc.confirmSnapRecon] at hcs
          simp only [show (mqtt_set_status (initRun s0) "正在連接...").confirmSnapRecon = none
            from rfl] at hcs
          cases hcs
        · intro r1 h1
          cases h1
      | ok stc =>
        rw [hwc] at hfc
        simp only [resSt] at hfc
        simp only [hwc]
        have htm := tail_main env t m stc
          (hfc.pubs.trans rfl) (hfc.bridgeLsWrites.trans rfl) (hfc.confirmSnapRecon.trans rfl)
        obtain ⟨hA, hB, hC, hD, hF, hSel, hG⟩ := htm
        have hscs : stc.sess.selected_device = s0.selected_device :=
          hfc.selected.trans rfl
        refine ⟨hA, hB, hC, hD, hF, ?_⟩
        intro r1 h1
        obtain ⟨hg1, hg2, hg3⟩ := hG r1 h1
        rw [hscs] at hg1
        exact ⟨hg1, hg2, hg3⟩

/-- `core_resSt_main` transferred to `send_mqtt_message_wait_response`,
whose top-level `except` only appends a status line to the state the core
ended in. -/
theorem wrap_main (env : Env) (s0 : SessionState) (t : String) (m : Json) :
    (send_mqtt_message_wait_response env s0 t m).pubs.length ≤ 2 ∧
    (∀ p ∈ (send_mqtt_message_wait_response env s0 t m).pubs,
      p.topic = t ∧ p.message = m) ∧
    (∀ v ∈ (send_mqtt_message_wait_response env s0 t m).bridgeLsWrites, v = none) ∧
    (∀ p, (send_mqtt_message_wait_response env s0 t m).pubs.getLast? = some p →
      p.snapLastStatus = none) ∧
    ((send_mqtt_message_wait_response env s0 t m).confirmSnapRecon.isSome = true →
      (send_mqtt_message_wait_response env s0 t m).pubs ≠ []) ∧
    (send_mqtt_message_wait_response env s0 t m).statusLog ≠ [] ∧
    (∀ e st1, send_mqtt_message_core env s0 t m = .error (e, st1) →
      send_mqtt_message_wait_response env s0 t m =
        mqtt_set_status st1 (":red_circle: 無法連接到 MQTT 代理: " ++ e)) ∧
    (∀ r1, send_mqtt_message_core env s0 t m = .ok r1 →
      send_mqtt_message_wait_response env s0 t m = r1) := by
  obtain ⟨hA, hB, hC, hD, hF, hG⟩ := core_resSt_main env s0 t m
  cases hc : send_mqtt_message_core env s0 t m with
  | ok r1 =>
    rw [hc] at hA hB hC hD hF
    simp only [resSt] at hA hB hC hD hF
    obtain ⟨-, hlog, -⟩ := hG r1 hc
    simp only [send_mqtt_message_wait_response, hc]
    refine ⟨hA, hB, hC, hD, hF, hlog, ?_, ?_⟩
    · intro e st1 h1
      cases h1
    · intro r2 h2
      rw [Except.ok.injEq] at h2
      rw [h2]
  | error es =>
    obtain ⟨e, st1⟩ := es
    rw [hc] at hA hB hC hD hF
    simp only [resSt] at hA hB hC hD hF
    simp only [send_mqtt_message_wait_response, hc]
    refine ⟨hA, hB, hC, hD, hF, List.cons_ne_nil _ _, ?_, ?_⟩
    · intro e2 st2 h1
      rw [Except.error.injEq, Prod.mk.injEq] at h1
      obtain ⟨h2, h3⟩ := h1
      rw [← h2, ← h3]
    · intro r1 h1
      cases h1

/- ## Bridge-level claims -/

/-- C3: the bridge never lets an exception escape: the wrapped round trip
is a total function of the transport oracle; every run ends with at least
one written status line, and any exception raised anywhere inside the core
is reported as the "cannot reach broker" status line interpolating the
cause, on the state mutated so far. -/
theorem claim3_error_boundary (env : Env) (s0 : SessionState) (t : String) (m : Json) :
    (send_mqtt_message_wait_response env s0 t m).statusLog ≠ [] ∧
    (∀ e st1, send_mqtt_message_core env s0 t m = .error (e, st1) →
      send_mqtt_message_wait_response env s0 t m =
        mqtt_set_status st1 (":red_circle: 無法連接到 MQTT 代理: " ++ e) ∧
      (send_mqtt_message_wait_response env s0 t m).sess.mqtt_status =
        some (":red_circle: 無法連接到 MQTT 代理: " ++ e)) ∧
    (∀ r1, send_mqtt_message_core env s0 t m = .ok r1 →
      send_mqtt_message_wait_response env s0 t m = r1) := by
  obtain ⟨-, -, -, -, -, hlog, hErr, hOk⟩ := wrap_main env s0 t m
  refine ⟨hlog, ?_, hOk⟩
  intro e st1 h1
  refine ⟨hErr e st1 h1, ?_⟩
  rw [hErr e st1 h1]
  rfl

/-- A broker that cannot even be reached: acquiring the client raises. -/
def downEnv : Env :=
  { acquireErr := some "boom",
    pumps := fun _ => { connack := none, msgs := [] },
    attempts := fun _ =>
      { subErr := none, pubErr := none, rc := 0, pubAt := some 0, reconErr := none } }

/-- C3 witness: on a dead broker the run still terminates, writes a status
line, and that line is the "cannot reach broker" report with the cause. -/
theorem claim3_witness :
    (send_mqtt_message_wait_response downEnv s0disc MQTT_TOPIC_COMMANDS
      (commandEnvelope "cam-1" CMD_REQUEST_STATUS)).statusLog ≠ [] ∧
    send_mqtt_message_wait_response downEnv s0disc MQTT_TOPIC_COMMANDS
      (commandEnvelope "cam-1" CMD_REQUEST_STATUS) =
      mqtt_set_status (initRun s0disc) (":red_circle: 無法連接到 MQTT 代理: " ++ "boom") ∧
    (send_mqtt_message_wait_response downEnv s0disc MQTT_TOPIC_COMMANDS
      (commandEnvelope "cam-1" CMD_REQUEST_STATUS)).sess.mqtt_status =
      some (":red_circle: 無法連接到 MQTT 代理: " ++ "boom") := by
  obtain ⟨h1, h2, -⟩ := claim3_error_boundary downEnv s0disc MQTT_TOPIC_COMMANDS
    (commandEnvelope "cam-1" CMD_REQUEST_STATUS)
  obtain ⟨h3, h4⟩ := h2 "boom" (initRun s0disc) rfl
  exact ⟨h1, h3, h4⟩

/-- A transport where the first publish attempt times out unconfirmed
(`rc = 0`, never published) and the second is confirmed immediately. -/
def retryEnv : Env :=
  { acquireErr := none,
    pumps := fun _ => { connack := none, msgs := [] },
    attempts := fun i =>
      if i = 0 then
        { subErr := none, pubErr := none, rc := 0, pubAt := none, reconErr := none }
      else
        { subErr := none, pubErr := none, rc := 0, pubAt := some 0, reconErr := none } }

/-- C1 counterexample: a run of `send_mqtt_command` whose first attempt
times out and whose second attempt is confirmed reaches a confirmed
delivery having published the CommandEnvelope twice, not exactly once. -/
theorem claim1_counterexample :
    (send_mqtt_command retryEnv s0conn "cam-1" CMD_STREAMING_START).confirmSnapRecon.isSome
      = true ∧
    (send_mqtt_command retryEnv s0conn "cam-1" CMD_STREAMING_START).pubs.length = 2 ∧
    ¬ (send_mqtt_command retryEnv s0conn "cam-1" CMD_STREAMING_START).pubs.length = 1 := by
  refine ⟨rfl, rfl, ?_⟩
  intro h
  rw [show (send_mqtt_command retryEnv s0conn "cam-1" CMD_STREAMING_START).pubs.length = 2
    from rfl] at h
  cases h

/-- C1 (amended): for every device id and each of the six Command values,
`send_mqtt_command` publishes the CommandEnvelope — serialized with
exactly the fields `device_id` (the requested id) and `command` (the
literal command string), in that shape — on the `commands` topic; a call
that reaches a confirmed delivery publishes it at least once and at most
twice (once per publish attempt), every published message being exactly
that envelope. -/
theorem claim1_amended_envelope (env : Env) (s0 : SessionState) (d c : String)
    (hc : c ∈ allCommands) :
    commandEnvelope d c = Json.obj [("device_id", .str d), ("command", .str c)] ∧
    ((send_mqtt_command env s0 d c).confirmSnapRecon.isSome = true →
      (send_mqtt_command env s0 d c).pubs ≠ []) ∧
    (send_mqtt_command env s0 d c).pubs.length ≤ 2 ∧
    (∀ p ∈ (send_mqtt_command env s0 d c).pubs,
      p.topic = MQTT_TOPIC_COMMANDS ∧ p.message = commandEnvelope d c) := by
  obtain ⟨hA, hB, -, -, hF, -, -, -⟩ :=
    wrap_main env s0 MQTT_TOPIC_COMMANDS (commandEnvelope d c)
  exact ⟨rfl, hF, hA, hB⟩

/-- C1 witness: a confirmed first-attempt run on the quiet broker
publishes the envelope exactly once, on the commands topic. -/
theorem claim1_witness :
    (send_mqtt_command quietEnv s0conn "cam-1" CMD_STREAMING_START).pubs ≠ [] ∧
    (send_mqtt_command quietEnv s0conn "cam-1" CMD_STREAMING_START).pubs.length ≤ 2 ∧
    (send_mqtt_command quietEnv s0conn "cam-1" CMD_STREAMING_START).pubs.map PubEv.topic =
      [MQTT_TOPIC_COMMANDS] ∧
    (send_mqtt_command quietEnv s0conn "cam-1" CMD_STREAMING_START).pubs.map PubEv.message =
      [commandEnvelope "cam-1" CMD_STREAMING_START] := by
  obtain ⟨-, hne, hlen, hall⟩ :=
    claim1_amended_envelope quietEnv s0conn "cam-1" CMD_STREAMING_START (by simp [allCommands])
  exact ⟨hne rfl, hlen, rfl, rfl⟩

/-- C4: on every invocation the bridge's own writes to `last_status` are
exactly the clears (value none); the first publish attempt of a run is
always made with `last_status = none`, even if a stale record was present;
and a normally completed round trip can leave a non-none `last_status`
only as a listener-stored record for the selected device. -/
theorem claim4_cleared_before_publish (env : Env) (s0 : SessionState)
    (t : String) (m : Json) :
    (∀ v ∈ (send_mqtt_message_wait_response env s0 t m).bridgeLsWrites, v = none) ∧
    (∀ p, (send_mqtt_message_wait_response env s0 t m).pubs.getLast? = some p →
      p.snapLastStatus = none) ∧
    (∀ r1, send_mqtt_message_core env s0 t m = .ok r1 →
      lsInv s0.selected_device r1.sess.mqtt_last_status) := by
  obtain ⟨-, -, hC, hD, -, -, -, -⟩ := wrap_main env s0 t m
  obtain ⟨-, -, -, -, -, hG⟩ := core_resSt_main env s0 t m
  exact ⟨hC, hD, fun r1 h1 => (hG r1 h1).1⟩

/-- C4 witness: with a stale record present in the session, the run's
single bridge write is the clear, the first publish snapshot shows a
cleared `last_status`, and the completed round trip obeys the invariant. -/
theorem claim4_witness :
    (send_mqtt_message_wait_response quietEnv s0conn MQTT_TOPIC_COMMANDS
      (commandEnvelope "cam-1" CMD_REQUEST_STATUS)).bridgeLsWrites.all Option.isNone = true ∧
    (send_mqtt_message_wait_response quietEnv s0conn MQTT_TOPIC_COMMANDS
      (commandEnvelope "cam-1" CMD_REQUEST_STATUS)).pubs.map PubEv.snapLastStatus = [none] ∧
    lsInv s0conn.selected_device
      (resSt (send_mqtt_message_core quietEnv s0conn MQTT_TOPIC_COMMANDS
        (commandEnvelope "cam-1" CMD_REQUEST_STATUS))).sess.mqtt_last_status := by
  obtain ⟨h1, h2, h3⟩ := claim4_cleared_before_publish quietEnv s0conn MQTT_TOPIC_COMMANDS
    (commandEnvelope "cam-1" CMD_REQUEST_STATUS)
  exact ⟨rfl, rfl,
    h3 (resSt (send_mqtt_message_core quietEnv s0conn MQTT_TOPIC_COMMANDS
      (commandEnvelope "cam-1" CMD_REQUEST_STATUS))) rfl⟩

/-- C7: when the core completes normally after a confirmed delivery
(`confirmSnapRecon` recorded) and `last_status` stayed falsy through the
response wait, the final status line is the "device did not respond"
report, `last_status` is none, and no reconnect happened after the
confirmation: the final reconnect counter still equals the one recorded
at confirmation time. -/
theorem claim7_no_response (env : Env) (s0 : SessionState) (t : String) (m : Json)
    (r1 : RunSt)
    (h1 : send_mqtt_message_core env s0 t m = .ok r1)
    (h2 : r1.confirmSnapRecon.isSome = true)
    (h3 : optJsonTruthy r1.sess.mqtt_last_status = false) :
    r1.sess.mqtt_status = some ":red_circle: 設備無響應" ∧
    r1.sess.mqtt_last_status = none ∧
    r1.confirmSnapRecon = some r1.reconCount ∧
    send_mqtt_message_wait_response env s0 t m = r1 := by
  obtain ⟨-, -, -, -, -, hG⟩ := core_resSt_main env s0 t m
  obtain ⟨-, -, hH⟩ := hG r1 h1
  obtain ⟨ha, hb, hcc⟩ := hH h2 h3
  obtain ⟨-, -, -, -, -, -, -, hOk⟩ := wrap_main env s0 t m
  exact ⟨ha, hb, hcc, hOk r1 h1⟩

/-- C7 witness: on the quiet broker (no device ever answers) a confirmed
command ends with the no-response status, a none `last_status`, and an
unchanged reconnect count. -/
theorem claim7_witness :
    (resSt (send_mqtt_message_core quietEnv s0conn MQTT_TOPIC_COMMANDS
      (commandEnvelope "cam-1" CMD_REQUEST_STATUS))).sess.mqtt_status =
      some ":red_circle: 設備無響應" ∧
    (resSt (send_mqtt_message_core quietEnv s0conn MQTT_TOPIC_COMMANDS
      (commandEnvelope "cam-1" CMD_REQUEST_STATUS))).sess.mqtt_last_status = none ∧
    (resSt (send_mqtt_message_core quietEnv s0conn MQTT_TOPIC_COMMANDS
      (commandEnvelope "cam-1" CMD_REQUEST_STATUS))).confirmSnapRecon =
      some (resSt (send_mqtt_message_core quietEnv s0conn MQTT_TOPIC_COMMANDS
        (commandEnvelope "cam-1" CMD_REQUEST_STATUS))).reconCount ∧
    send_mqtt_message_wait_response quietEnv s0conn MQTT_TOPIC_COMMANDS
      (commandEnvelope "cam-1" CMD_REQUEST_STATUS) =
      resSt (send_mqtt_message_core quietEnv s0conn MQTT_TOPIC_COMMANDS
        (commandEnvelope "cam-1" CMD_REQUEST_STATUS)) :=
  claim7_no_response quietEnv s0conn MQTT_TOPIC_COMMANDS
    (commandEnvelope "cam-1" CMD_REQUEST_STATUS)
    (resSt (send_mqtt_message_core quietEnv s0conn MQTT_TOPIC_COMMANDS
      (commandEnvelope "cam-1" CMD_REQUEST_STATUS)))
    rfl rfl rfl

/- ## Single-iteration walks of the retry loop, for the failure scenarios -/

/-- The state right after `subscribe`, `publish` and the "Sending
message..." status of one retry-loop iteration entered in `st`. -/
@[reducible] def sendingState (t : String) (m : Json) (st : RunSt) : RunSt :=
  mqtt_set_status (recordPublish { st with subCount := st.subCount + 1 } t m)
    "Sending message..."

/-- The state after `state.mqtt_connected = False` and the reconnect
status line of the transport-failure branch, entered in `st3`. -/
@[reducible] def discState (st3 : RunSt) : RunSt :=
  mqtt_set_status
    { st3 with sess := { st3.sess with mqtt_connected := false },
               connFalseCount := st3.connFalseCount + 1 }
    ":clock3: 正在重新連接..."

/-- `discState` plus the recorded `client.reconnect()` call. -/
@[reducible] def reconState (st3 : RunSt) : RunSt :=
  { discState st3 with reconCount := (discState st3).reconCount + 1 }

/-- When `msg_info.rc` is non-zero the confirmation wait makes no loop
call at all. -/
theorem wait_publish_rc_fail (env : Env) (a : AttemptEnv) (st : RunSt)
    (hrc : a.rc ≠ 0) : wait_publish env a st 0 5 = .ok (st, 0) := by
  have hb : (a.rc == 0) = false := by simpa using hrc
  show wait_publish env a st 0 (4 + 1) = .ok (st, 0)
  simp only [wait_publish, hb, Bool.false_and, Bool.false_eq_true, if_false]

/-- The acquire and connect phases of the core, on a safe transport:
they raise nothing and hand `send_after_connect` a state whose ghost trace
is still empty. -/
theorem connect_phase (env : Env) (s0 : SessionState) (t : String) (m : Json)
    (hs : envSafe env) (ha : env.acquireErr = none) :
    ∃ stc, send_mqtt_message_core env s0 t m = send_after_connect env t m stc ∧
      stc.pubs = [] ∧ stc.reconCount = 0 ∧ stc.connFalseCount = 0 ∧
      stc.confirmSnapRecon = none ∧ stc.respWaitEntered = false ∧
      stc.bridgeLsWrites = [] := by
  cases hS0 : s0.mqtt_connected with
  | true =>
    refine ⟨initRun s0, ?_, rfl, rfl, rfl, rfl, rfl, rfl⟩
    simp only [send_mqtt_message_core, ha, hS0, Bool.not_true, Bool.false_eq_true, if_false]
  | false =>
    obtain ⟨stc, hwc⟩ := wait_conn_safe hs 5 (mqtt_set_status (initRun s0) "正在連接...")
    have hfc := (wait_conn_frame env 5 (mqtt_set_status (initRun s0) "正在連接...")).1
    rw [hwc] at hfc
    simp only [resSt] at hfc
    refine ⟨stc, ?_, hfc.pubs.trans rfl, hfc.reconCount.trans rfl,
      hfc.connFalseCount.trans rfl, hfc.confirmSnapRecon.trans rfl,
      hfc.respWaitEntered.trans rfl, hfc.bridgeLsWrites.trans rfl⟩
    simp only [send_mqtt_message_core, ha, hS0, Bool.not_false, if_true, hwc]

/-- One retry-loop iteration whose publish reports a non-zero `rc` on a
safe transport: it records the publish, marks the session disconnected,
reconnects, waits for the connection, and hands the next iteration a state
with one more publish, one more reconnect and one more `connected = false`
write. -/
theorem retry_step_fail (env : Env) (t : String) (m : Json) (st : RunSt)
    (i : Nat) (last0 : Option (Nat × Nat)) (retry : Nat)
    (hs : envSafe env)
    (hsub : (env.attempts i).subErr = none)
    (hpub : (env.attempts i).pubErr = none)
    (hrc : (env.attempts i).rc ≠ 0)
    (hpa : (env.attempts i).pubAt = none)
    (hre : (env.attempts i).reconErr = none) :
    ∃ st7, retry_loop env t m st i (retry + 1) last0 =
        retry_loop env t m st7 (i + 1) retry (some (i, 0)) ∧
      st7.pubs = mkPub t m st :: st.pubs ∧
      st7.reconCount = st.reconCount + 1 ∧
      st7.connFalseCount = st.connFalseCount + 1 ∧
      st7.confirmSnapRecon = st.confirmSnapRecon ∧
      st7.respWaitEntered = st.respWaitEntered := by
  have hip : isPublished (env.attempts i) 0 = false := by
    simp only [isPublished, hpa]
  have hbne : ((env.attempts i).rc != 0) = true := by simpa using hrc
  obtain ⟨st7, hwc⟩ := wait_conn_safe hs 5 (reconState (sendingState t m st))
  have hfc := (wait_conn_frame env 5 (reconState (sendingState t m st))).1
  rw [hwc] at hfc
  simp only [resSt] at hfc
  refine ⟨st7, ?_, hfc.pubs.trans rfl, hfc.reconCount.trans rfl,
    hfc.connFalseCount.trans rfl, hfc.confirmSnapRecon.trans rfl,
    hfc.respWaitEntered.trans rfl⟩
  simp only [retry_loop, hsub, hpub,
    wait_publish_rc_fail env (env.attempts i) (sendingState t m st) hrc,
    hip, Bool.false_eq_true, if_false, hbne, if_true, hre, hwc]

/-- One retry-loop iteration whose publish has `rc = 0` but is never
confirmed (`PublishTimeout`), on a safe transport: the confirmation wait
exhausts its budget and the iteration consumes one attempt with no
reconnect and no `connected = false` write. -/
theorem retry_step_timeout (env : Env) (t : String) (m : Json) (st : RunSt)
    (i : Nat) (last0 : Option (Nat × Nat)) (retry : Nat)
    (hs : envSafe env)
    (hsub : (env.attempts i).subErr = none)
    (hpub : (env.attempts i).pubErr = none)
    (hrc : (env.attempts i).rc = 0)
    (hpa : (env.attempts i).pubAt = none) :
    ∃ st3 p, retry_loop env t m st i (retry + 1) last0 =
        retry_loop env t m st3 (i + 1) retry (some (i, p)) ∧
      st3.pubs = mkPub t m st :: st.pubs ∧
      st3.reconCount = st.reconCount ∧
      st3.connFalseCount = st.connFalseCount ∧
      st3.confirmSnapRecon = st.confirmSnapRecon ∧
      st3.respWaitEntered = st.respWaitEntered := by
  have hipAll : ∀ q, isPublished (env.attempts i) q = false := by
    intro q; simp only [isPublished, hpa]
  have hbne : ((env.attempts i).rc != 0) = false := by simpa using hrc
  obtain ⟨st3, p, hw⟩ := wait_pub_safe (env.attempts i) hs 5 (sendingState t m st) 0
  have hf := (wait_pub_frame env (env.attempts i) 5 (sendingState t m st) 0).1
  rw [hw] at hf
  simp only [resSt2] at hf
  refine ⟨st3, p, ?_, hf.pubs.trans rfl, hf.reconCount.trans rfl,
    hf.connFalseCount.trans rfl, hf.confirmSnapRecon.trans rfl,
    hf.respWaitEntered.trans rfl⟩
  simp only [retry_loop, hsub, hpub, hw, hipAll p, Bool.false_eq_true, if_false, hbne]

/-- A final retry-loop iteration (budget 1) on a safe transport with a
raising-free subscribe and publish: whatever the attempt's outcome, the
loop ends having recorded exactly one more publish, made in the entry
state. -/
theorem retry_one_shot (env : Env) (t : String) (m : Json) (st : RunSt)
    (i : Nat) (last0 : Option (Nat × Nat))
    (hs : envSafe env)
    (hsub : (env.attempts i).subErr = none)
    (hpub : (env.attempts i).pubErr = none) :
    (resSt3 (retry_loop env t m st i 1 last0)).pubs = mkPub t m st :: st.pubs := by
  obtain ⟨st3, p, hw⟩ := wait_pub_safe (env.attempts i) hs 5 (sendingState t m st) 0
  have hf := (wait_pub_frame env (env.attempts i) 5 (sendingState t m st) 0).1
  rw [hw] at hf
  simp only [resSt2] at hf
  show (resSt3 (retry_loop env t m st i (0 + 1) last0)).pubs = mkPub t m st :: st.pubs
  simp only [retry_loop, hsub, hpub, hw]
  cases hip : isPublished (env.attempts i) p with
  | true =>
    simp only [hip, if_true, resSt3]
    exact hf.pubs.trans rfl
  | false =>
    simp only [hip, Bool.false_eq_true, if_false]
    cases hrc : (env.attempts i).rc != 0 with
    | false =>
      simp only [hrc, Bool.false_eq_true, if_false, retry_loop, resSt3]
      exact hf.pubs.trans rfl
    | true =>
      simp only [hrc, if_true]
      cases hre : (env.attempts i).reconErr with
      | some e =>
        simp only [hre, resSt3]
        exact hf.pubs.trans rfl
      | none =>
        simp only [hre]
        obtain ⟨st7, hwc⟩ := wait_conn_safe hs 5 (reconState st3)
        have hfc := (wait_conn_frame env 5 (reconState st3)).1
        rw [hwc] at hfc
        simp only [resSt] at hfc
        rw [show mqtt_wait_connection env
            { mqtt_set_status
                { st3 with sess := { st3.sess with mqtt_connected := false },
                           connFalseCount := st3.connFalseCount + 1 }
                ":clock3: 正在重新連接..." with
              reconCount := (mqtt_set_status
                { st3 with sess := { st3.sess with mqtt_connected := false },
                           connFalseCount := st3.connFalseCount + 1 }
                ":clock3: 正在重新連接...").reconCount + 1 } 5 =
            Except.ok st7 from hwc]
        simp only [retry_loop, resSt3]
        calc st7.pubs = st3.pubs := hfc.pubs.trans rfl
          _ = mkPub t m st :: st.pubs := hf.pubs.trans rfl

/-- The final `except` handler only writes a status line: all ghost trace
fields of the wrapped call equal those of the state the core ended in. -/
theorem wrap_ghost (env : Env) (s0 : SessionState) (t : String) (m : Json) :
    (send_mqtt_message_wait_response env s0 t m).pubs =
      (resSt (send_mqtt_message_core env s0 t m)).pubs ∧
    (send_mqtt_message_wait_response env s0 t m).reconCount =
      (resSt (send_mqtt_message_core env s0 t m)).reconCount ∧
    (send_mqtt_message_wait_response env s0 t m).connFalseCount =
      (resSt (send_mqtt_message_core env s0 t m)).connFalseCount ∧
    (send_mqtt_message_wait_response env s0 t m).respWaitEntered =
      (resSt (send_mqtt_message_core env s0 t m)).respWaitEntered := by
  cases hc : send_mqtt_message_core env s0 t m with
  | ok r1 =>
    simp only [send_mqtt_message_wait_response, hc, resSt]
    refine ⟨?_, ?_, ?_, ?_⟩ <;> first | rfl | trivial
  | error es =>
    obtain ⟨e, st1⟩ := es
    simp only [send_mqtt_message_wait_response, hc, resSt]
    refine ⟨?_, ?_, ?_, ?_⟩ <;> first | rfl | trivial

/-- The phases after the retry loop don't publish: the publish list of the
whole tail is that of the retry loop. -/
theorem tail_ghost (env : Env) (t : String) (m : Json) (stc : RunSt) :
    (resSt (send_after_connect env t m stc)).pubs =
      (resSt3 (retry_loop env t m (clearStep stc) 0 2 none)).pubs := by
  cases hrl : retry_loop env t m (clearStep stc) 0 2 none with
  | error e =>
    simp only [send_after_connect, hrl, resSt, resSt3]
  | ok pr =>
    obtain ⟨str, last⟩ := pr
    cases last with
    | none => simp only [send_after_connect, hrl, resSt, resSt3]
    | some ip =>
      obtain ⟨i, p⟩ := ip
      cases hip : isPublished (env.attempts i) p with
      | false =>
        simp only [send_after_connect, hrl, hip, Bool.not_false, if_true, resSt, resSt3]
        rfl
      | true =>
        simp only [send_after_connect, hrl, hip, Bool.not_true, Bool.false_eq_true, if_false]
        have hfr := (wait_resp_frame env 5 { str with respWaitEntered := true }).1
        cases hwr : mqtt_wait_response env { str with respWaitEntered := true } 5 with
        | error e =>
          rw [hwr] at hfr
          simp only [resSt] at hfr
          simp only [hwr, resSt, resSt3]
          exact hfr.pubs.trans rfl
        | ok stz =>
          rw [hwr] at hfr
          simp only [resSt] at hfr
          simp only [hwr]
          cases htr : optJsonTruthy stz.sess.mqtt_last_status with
          | false =>
            simp only [htr, Bool.not_false, if_true, resSt, resSt3]
            exact hfr.pubs.trans rfl
          | true =>
            simp only [htr, Bool.not_true, Bool.false_eq_true, if_false, resSt, resSt3]
            exact hfr.pubs.trans rfl

/-- C5: the retry budget of 2 means at most one retry ever happens (at
most two publish calls per invocation); and when the first publish attempt
reports a non-zero `rc`, the bridge sets `connected = false` and calls
`reconnect` before the second publish attempt: the second recorded publish
snapshot shows exactly one more reconnect call and one more
`connected = false` write than the first. -/
theorem claim5_reconnect_before_retry :
    (∀ (env : Env) (s0 : SessionState) (t : String) (m : Json),
      (send_mqtt_message_wait_response env s0 t m).pubs.length ≤ 2) ∧
    (∀ (env : Env) (s0 : SessionState) (t : String) (m : Json),
      envSafe env → env.acquireErr = none →
      (env.attempts 0).subErr = none → (env.attempts 0).pubErr = none →
      (env.attempts 0).rc ≠ 0 → (env.attempts 0).pubAt = none →
      (env.attempts 0).reconErr = none →
      (env.attempts 1).subErr = none → (env.attempts 1).pubErr = none →
      ∃ p1 p0, (send_mqtt_message_wait_response env s0 t m).pubs = [p1, p0] ∧
        p0.snapRecon = 0 ∧ p0.snapConnFalse = 0 ∧
        p1.snapRecon = 1 ∧ p1.snapConnFalse = 1) := by
  constructor
  · intro env s0 t m
    exact (wrap_main env s0 t m).1
  · intro env s0 t m hs ha h0s h0p h0r h0a h0re h1s h1p
    obtain ⟨stc, hcEq, hcp, hcr, hcc, -, -, -⟩ := connect_phase env s0 t m hs ha
    obtain ⟨st7, hE1, hp7, hr7, hc7, -, -⟩ :=
      retry_step_fail env t m (clearStep stc) 0 none 1 hs h0s h0p h0r h0a h0re
    have hshot := retry_one_shot env t m st7 1 (some (0, 0)) hs h1s h1p
    have hretry : (resSt3 (retry_loop env t m (clearStep stc) 0 2 none)).pubs
        = mkPub t m st7 :: st7.pubs := by
      have hE : retry_loop env t m (clearStep stc) 0 2 none
          = retry_loop env t m st7 1 1 (some (0, 0)) := hE1
      rw [hE]
      exact hshot
    have hcorePubs : (resSt (send_mqtt_message_core env s0 t m)).pubs
        = mkPub t m st7 :: st7.pubs := by
      rw [hcEq, tail_ghost env t m stc, hretry]
    refine ⟨mkPub t m st7, mkPub t m (clearStep stc), ?_, ?_, ?_, ?_, ?_⟩
    · rw [(wrap_ghost env s0 t m).1, hcorePubs, hp7]
      rw [show (clearStep stc).pubs = stc.pubs from rfl, hcp]
    · show (clearStep stc).reconCount = 0
      exact hcr
    · show (clearStep stc).connFalseCount = 0
      exact hcc
    · show st7.reconCount = 1
      rw [hr7]
      show stc.reconCount + 1 = 1
      rw [hcr]
    · show st7.connFalseCount = 1
      rw [hc7]
      show stc.connFalseCount + 1 = 1
      rw [hcc]

/-- A transport whose first publish attempt fails with `rc = 1` and whose
second is confirmed immediately. -/
def failEnv : Env :=
  { acquireErr := none,
    pumps := fun _ => { connack := none, msgs := [] },
    attempts := fun i =>
      if i = 0 then
        { subErr := none, pubErr := none, rc := 1, pubAt := none, reconErr := none }
      else
        { subErr := none, pubErr := none, rc := 0, pubAt := some 0, reconErr := none } }

/-- C5 witness: on `failEnv` the run makes exactly two publishes, the
second one after exactly one reconnect and one `connected = false` write. -/
theorem claim5_witness :
    (send_mqtt_message_wait_response failEnv s0conn MQTT_TOPIC_COMMANDS
      (commandEnvelope "cam-1" CMD_STREAMING_START)).pubs.length = 2 ∧
    (send_mqtt_message_wait_response failEnv s0conn MQTT_TOPIC_COMMANDS
      (commandEnvelope "cam-1" CMD_STREAMING_START)).pubs.map PubEv.snapRecon = [1, 0] ∧
    (send_mqtt_message_wait_response failEnv s0conn MQTT_TOPIC_COMMANDS
      (commandEnvelope "cam-1" CMD_STREAMING_START)).pubs.map PubEv.snapConnFalse = [1, 0] := by
  obtain ⟨p1, p0, h1, h2, h3, h4, h5⟩ :=
    claim5_reconnect_before_retry.2 failEnv s0conn MQTT_TOPIC_COMMANDS
      (commandEnvelope "cam-1" CMD_STREAMING_START)
      (fun k m0 hm => absurd hm (List.not_mem_nil m0))
      rfl rfl rfl (by decide) rfl rfl rfl rfl
  refine ⟨by rw [h1]; rfl, ?_, ?_⟩
  · rw [h1, List.map_cons, List.map_cons, List.map_nil, h4, h2]
  · rw [h1, List.map_cons, List.map_cons, List.map_nil, h5, h3]

/-- One retry-loop iteration whose publish attempt fails in either way —
a non-zero `rc` (transport error, triggering the reconnect branch) or an
unconfirmed `rc = 0` publish (timeout, triggering no reconnect) — on a
safe transport: it consumes one attempt, records exactly one publish, and
adds one reconnect call and one `connected = false` write exactly when the
failure was a transport error. -/
theorem retry_step_failing (env : Env) (t : String) (m : Json) (st : RunSt)
    (i : Nat) (last0 : Option (Nat × Nat)) (retry : Nat)
    (hs : envSafe env)
    (hsub : (env.attempts i).subErr = none)
    (hpub : (env.attempts i).pubErr = none)
    (hpa : (env.attempts i).pubAt = none)
    (hre : (env.attempts i).rc ≠ 0 → (env.attempts i).reconErr = none) :
    ∃ st2 p, retry_loop env t m st i (retry + 1) last0 =
        retry_loop env t m st2 (i + 1) retry (some (i, p)) ∧
      st2.pubs = mkPub t m st :: st.pubs ∧
      st2.reconCount = st.reconCount + (if (env.attempts i).rc = 0 then 0 else 1) ∧
      st2.connFalseCount =
        st.connFalseCount + (if (env.attempts i).rc = 0 then 0 else 1) ∧
      st2.confirmSnapRecon = st.confirmSnapRecon ∧
      st2.respWaitEntered = st.respWaitEntered := by
  by_cases hrc : (env.attempts i).rc = 0
  · obtain ⟨st3, p, hT, hp, hr, hc, hcf, hw⟩ :=
      retry_step_timeout env t m st i last0 retry hs hsub hpub hrc hpa
    exact ⟨st3, p, hT, hp, by rw [if_pos hrc, Nat.add_zero]; exact hr,
      by rw [if_pos hrc, Nat.add_zero]; exact hc, hcf, hw⟩
  · obtain ⟨st7, hE, hp, hr, hc, hcf, hw⟩ :=
      retry_step_fail env t m st i last0 retry hs hsub hpub hrc hpa (hre hrc)
    exact ⟨st7, 0, hE, hp, by rw [if_neg hrc]; exact hr,
      by rw [if_neg hrc]; exact hc, hcf, hw⟩

/-- C6 (amended): whenever both publish attempts fail — each one either
with a non-zero `rc` (transport error) or by timing out unconfirmed with
`rc = 0` — the retry budget is exhausted: exactly two publish calls are
made, the terminal status is ":o: Message failed", the response wait is
never entered, and the run makes exactly one reconnect call per attempt
that failed with a non-zero `rc` (two when both attempts report transport
errors, one in a mixed run, none when both merely time out). -/
theorem claim6_amended_budget_exhausted :
    ∀ (env : Env) (s0 : SessionState) (t : String) (m : Json),
      envSafe env → env.acquireErr = none →
      (env.attempts 0).subErr = none → (env.attempts 0).pubErr = none →
      (env.attempts 1).subErr = none → (env.attempts 1).pubErr = none →
      (env.attempts 0).pubAt = none → (env.attempts 1).pubAt = none →
      ((env.attempts 0).rc ≠ 0 → (env.attempts 0).reconErr = none) →
      ((env.attempts 1).rc ≠ 0 → (env.attempts 1).reconErr = none) →
      (send_mqtt_message_wait_response env s0 t m).pubs.length = 2 ∧
      (send_mqtt_message_wait_response env s0 t m).sess.mqtt_status =
        some ":o: Message failed" ∧
      (send_mqtt_message_wait_response env s0 t m).respWaitEntered = false ∧
      (send_mqtt_message_wait_response env s0 t m).reconCount =
        (if (env.attempts 0).rc = 0 then 0 else 1) +
        (if (env.attempts 1).rc = 0 then 0 else 1) := by
  intro env s0 t m hs ha h0s h0p h1s h1p h0a h1a h0re h1re
  obtain ⟨stc, hcEq, hcp, hcr, hcc, hcf2, hcw, -⟩ := connect_phase env s0 t m hs ha
  obtain ⟨-, -, -, -, -, -, -, hOk⟩ := wrap_main env s0 t m
  have hip1 : ∀ q, isPublished (env.attempts 1) q = false := by
    intro q; simp only [isPublished, h1a]
  obtain ⟨st2, p, hE1, hp1, hr1, hc1, -, hw1⟩ :=
    retry_step_failing env t m (clearStep stc) 0 none 1 hs h0s h0p h0a h0re
  obtain ⟨st22, p2, hE2, hp2, hr2, hc2, -, hw2⟩ :=
    retry_step_failing env t m st2 1 (some (0, p)) 0 hs h1s h1p h1a h1re
  have hE : retry_loop env t m (clearStep stc) 0 2 none = .ok (st22, some (1, p2)) := by
    have he1 : retry_loop env t m (clearStep stc) 0 2 none
        = retry_loop env t m st2 1 1 (some (0, p)) := hE1
    have he2 : retry_loop env t m st2 1 1 (some (0, p))
        = retry_loop env t m st22 2 0 (some (1, p2)) := hE2
    rw [he1, he2]
    rfl
  have hcore : send_mqtt_message_core env s0 t m =
      .ok (mqtt_set_status st22 ":o: Message failed") := by
    rw [hcEq]
    simp only [send_after_connect, hE, hip1 p2, Bool.not_false, if_true]
  have hw := hOk _ hcore
  rw [hw]
  refine ⟨?_, rfl, ?_, ?_⟩
  · show st22.pubs.length = 2
    rw [hp2, List.length_cons, hp1, List.length_cons,
      show (clearStep stc).pubs = stc.pubs from rfl, hcp]
    rfl
  · show st22.respWaitEntered = false
    rw [hw2, hw1]
    show stc.respWaitEntered = false
    rw [hcw]
  · show st22.reconCount =
      (if (env.attempts 0).rc = 0 then 0 else 1) +
      (if (env.attempts 1).rc = 0 then 0 else 1)
    rw [hr2, hr1]
    have hcr0 : (clearStep stc).reconCount = 0 := hcr
    rw [hcr0]
    omega

/-- A transport where every publish attempt has `rc = 0` but is never
confirmed: both attempts fail by timeout. -/
def timeoutEnv : Env :=
  { acquireErr := none,
    pumps := fun _ => { connack := none, msgs := [] },
    attempts := fun _ =>
      { subErr := none, pubErr := none, rc := 0, pubAt := none, reconErr := none } }

/-- C6 counterexample: when both attempts fail by confirmation timeout
(`rc = 0`), the budget is exhausted with the "message failed" status after
two publishes — but ZERO reconnect calls, not the two the claim states. -/
theorem claim6_counterexample :
    (send_mqtt_message_wait_response timeoutEnv s0conn MQTT_TOPIC_COMMANDS
      (commandEnvelope "cam-1" CMD_STREAMING_START)).sess.mqtt_status =
      some ":o: Message failed" ∧
    (send_mqtt_message_wait_response timeoutEnv s0conn MQTT_TOPIC_COMMANDS
      (commandEnvelope "cam-1" CMD_STREAMING_START)).pubs.length = 2 ∧
    (send_mqtt_message_wait_response timeoutEnv s0conn MQTT_TOPIC_COMMANDS
      (commandEnvelope "cam-1" CMD_STREAMING_START)).reconCount = 0 ∧
    ¬ (send_mqtt_message_wait_response timeoutEnv s0conn MQTT_TOPIC_COMMANDS
      (commandEnvelope "cam-1" CMD_STREAMING_START)).reconCount = 2 := by
  refine ⟨rfl, rfl, rfl, ?_⟩
  intro h
  rw [show (send_mqtt_message_wait_response timeoutEnv s0conn MQTT_TOPIC_COMMANDS
    (commandEnvelope "cam-1" CMD_STREAMING_START)).reconCount = 0 from rfl] at h
  cases h

/-- A transport where every publish attempt fails with `rc = 1`. -/
def fail2Env : Env :=
  { acquireErr := none,
    pumps := fun _ => { connack := none, msgs := [] },
    attempts := fun _ =>
      { subErr := none, pubErr := none, rc := 1, pubAt := none, reconErr := none } }

/-- A transport with a mixed failure: attempt 1 reports `rc = 1`
(transport error), attempt 2 has `rc = 0` but is never confirmed
(timeout). -/
def mixedEnv : Env :=
  { acquireErr := none,
    pumps := fun _ => { connack := none, msgs := [] },
    attempts := fun i =>
      if i = 0 then
        { subErr := none, pubErr := none, rc := 1, pubAt := none, reconErr := none }
      else
        { subErr := none, pubErr := none, rc := 0, pubAt := none, reconErr := none } }

/-- C6 witness: the amended claim at concrete transports — always two
publishes, "message failed" and no response wait; two reconnects when both
attempts report `rc = 1`, none when both time out, and exactly one in the
mixed run (attempt 1 transport error, attempt 2 timeout). -/
theorem claim6_witness :
    ((send_mqtt_message_wait_response fail2Env s0conn MQTT_TOPIC_COMMANDS
        (commandEnvelope "cam-1" CMD_STREAMING_START)).pubs.length = 2 ∧
      (send_mqtt_message_wait_response fail2Env s0conn MQTT_TOPIC_COMMANDS
        (commandEnvelope "cam-1" CMD_STREAMING_START)).sess.mqtt_status =
        some ":o: Message failed" ∧
      (send_mqtt_message_wait_response fail2Env s0conn MQTT_TOPIC_COMMANDS
        (commandEnvelope "cam-1" CMD_STREAMING_START)).respWaitEntered = false ∧
      (send_mqtt_message_wait_response fail2Env s0conn MQTT_TOPIC_COMMANDS
        (commandEnvelope "cam-1" CMD_STREAMING_START)).reconCount = 2) ∧
    ((send_mqtt_message_wait_response timeoutEnv s0conn MQTT_TOPIC_COMMANDS
        (commandEnvelope "cam-1" CMD_STREAMING_START)).pubs.length = 2 ∧
      (send_mqtt_message_wait_response timeoutEnv s0conn MQTT_TOPIC_COMMANDS
        (commandEnvelope "cam-1" CMD_STREAMING_START)).sess.mqtt_status =
        some ":o: Message failed" ∧
      (send_mqtt_message_wait_response timeoutEnv s0conn MQTT_TOPIC_COMMANDS
        (commandEnvelope "cam-1" CMD_STREAMING_START)).respWaitEntered = false ∧
      (send_mqtt_message_wait_response timeoutEnv s0conn MQTT_TOPIC_COMMANDS
        (commandEnvelope "cam-1" CMD_STREAMING_START)).reconCount = 0) ∧
    ((send_mqtt_message_wait_response mixedEnv s0conn MQTT_TOPIC_COMMANDS
        (commandEnvelope "cam-1" CMD_STREAMING_START)).pubs.length = 2 ∧
      (send_mqtt_message_wait_response mixedEnv s0conn MQTT_TOPIC_COMMANDS
        (commandEnvelope "cam-1" CMD_STREAMING_START)).sess.mqtt_status =
        some ":o: Message failed" ∧
      (send_mqtt_message_wait_response mixedEnv s0conn MQTT_TOPIC_COMMANDS
        (commandEnvelope "cam-1" CMD_STREAMING_START)).respWaitEntered = false ∧
      (send_mqtt_message_wait_response mixedEnv s0conn MQTT_TOPIC_COMMANDS
        (commandEnvelope "cam-1" CMD_STREAMING_START)).reconCount = 1) := by
  obtain ⟨ha1, ha2, ha3, ha4⟩ := claim6_amended_budget_exhausted fail2Env s0conn
    MQTT_TOPIC_COMMANDS (commandEnvelope "cam-1" CMD_STREAMING_START)
    (fun k m0 hm => absurd hm (List.not_mem_nil m0))
    rfl rfl rfl rfl rfl rfl rfl (fun h => rfl) (fun h => rfl)
  obtain ⟨hb1, hb2, hb3, hb4⟩ := claim6_amended_budget_exhausted timeoutEnv s0conn
    MQTT_TOPIC_COMMANDS (commandEnvelope "cam-1" CMD_STREAMING_START)
    (fun k m0 hm => absurd hm (List.not_mem_nil m0))
    rfl rfl rfl rfl rfl rfl rfl (fun h => rfl) (fun h => rfl)
  obtain ⟨hc1, hc2, hc3, hc4⟩ := claim6_amended_budget_exhausted mixedEnv s0conn
    MQTT_TOPIC_COMMANDS (commandEnvelope "cam-1" CMD_STREAMING_START)
    (fun k m0 hm => absurd hm (List.not_mem_nil m0))
    rfl rfl rfl rfl rfl rfl rfl (fun h => rfl) (fun h => rfl)
  exact ⟨⟨ha1, ha2, ha3, ha4.trans (by decide)⟩,
    ⟨hb1, hb2, hb3, hb4.trans (by decide)⟩,
    ⟨hc1, hc2, hc3, hc4.trans (by decide)⟩⟩
